import Mathlib

/-!
Verification of the Orca ZTBus preparation pipeline (Go sources
`main.go`, `data.go`, `query.sql`, `migrations/`).

The Go code is shallowly embedded: pure functions become Lean functions,
the database becomes an explicit `DBState` threaded through the
operations, and fallible steps return `Option`/`Except`.  Go `float64`
and `float32` values are modelled as `Rat` (no claim below depends on
floating-point rounding, and the `float32(x)` narrowing conversions are
modelled as the identity); Go `int`/`int32` become `Int`, with the
`int32(x)` conversion modelled as wrap-around at 2^32 where the source
applies it.  A nil-pointer dereference (a Go runtime panic) is modelled
as `none` in the function that performs it and as a `panic` outcome of
the surrounding worker.
-/

/-! ## pgtype wrappers (github.com/jackc/pgx/v5/pgtype)

Each wrapper pairs a value with a `valid` flag; `valid = false` is the
SQL NULL ("no value").  The Go names are `pgtype.Float4`, `pgtype.Int4`,
`pgtype.Text`, `pgtype.Bool`, `pgtype.Timestamp`; they are prefixed with
`Pg` here because `Bool` and `Text` would collide with core names. -/

structure PgFloat4 where
  float32 : Rat
  valid : Bool
  deriving DecidableEq, Repr

structure PgInt4 where
  int32 : Int
  valid : Bool
  deriving DecidableEq, Repr

structure PgText where
  string : String
  valid : Bool
  deriving DecidableEq, Repr

structure PgBool where
  bool : Bool
  valid : Bool
  deriving DecidableEq, Repr

/-- `pgtype.Timestamp`; the `time.Time` value is represented by its Unix
seconds, which is how every call site builds it (`time.Unix(..., 0)`). -/
structure PgTimestamp where
  time : Int
  valid : Bool
  deriving DecidableEq, Repr

/-- Go `int32(n)` conversion: wrap-around to the range of a signed
32-bit integer. -/
def int32Wrap (n : Int) : Int :=
  (n + 2 ^ 31) % 2 ^ 32 - 2 ^ 31

/-! ## data.go: record types -/

/-- `Metadata` from `src/data.go`: one row of `metaData.csv`. -/
structure Metadata where
  name : String
  busNumber : String
  startTimeUnix : Int
  endTimeUnix : Int
  drivenDistance : Rat
  busRoute : String
  energyConsumption : Int
  itcsNumberOfPassengersMean : Rat
  itcsNumberOfPassengersMin : Rat
  itcsNumberOfPassengersMax : Rat
  statusGridIsAvailableMean : Rat
  temperatureAmbientMean : Rat
  temperatureAmbientMin : Rat
  temperatureAmbientMax : Rat
  deriving DecidableEq, Repr

/-- `TripTelemetry` from `src/data.go`: one parsed telemetry CSV row.
Optional source columns are Go pointers (`*float64`, `*int`, `*string`),
modelled as `Option`; `none` is Go `nil`.  The grid-availability field
is spelled `TatusGridIsAvailable` in `data.go` (parsed from the CSV
header literally named `tatus_gridIsAvailable`); `main.go` refers to the
same record field as `StatusGridIsAvailable`. -/
structure TripTelemetry where
  timeUnix : Int
  electricPowerDemand : Rat
  gnssAltitude : Option Rat
  gnssCourse : Option Rat
  gnssLatitude : Option Rat
  gnssLongitude : Option Rat
  itcsBusRoute : String
  itcsNumberOfPassengers : Option Int
  itcsStopName : Option String
  odometryArticulationAngle : Rat
  odometrySteeringAngle : Rat
  odometryVehicleSpeed : Rat
  odometryWheelSpeedFl : Rat
  odometryWheelSpeedFr : Rat
  odometryWheelSpeedMl : Rat
  odometryWheelSpeedMr : Rat
  odometryWheelSpeedRl : Rat
  odometryWheelSpeedRr : Rat
  statusDoorIsOpen : Bool
  tatusGridIsAvailable : Bool
  statusHaltBrakeIsActive : Bool
  statusParkBrakeIsActive : Bool
  temperatureAmbient : Rat
  tractionBrakePressure : Rat
  tractionTractionForce : Rat
  deriving DecidableEq, Repr

instance : Inhabited TripTelemetry :=
  ⟨{ timeUnix := 0, electricPowerDemand := 0, gnssAltitude := none,
     gnssCourse := none, gnssLatitude := none, gnssLongitude := none,
     itcsBusRoute := "", itcsNumberOfPassengers := none, itcsStopName := none,
     odometryArticulationAngle := 0, odometrySteeringAngle := 0,
     odometryVehicleSpeed := 0, odometryWheelSpeedFl := 0,
     odometryWheelSpeedFr := 0, odometryWheelSpeedMl := 0,
     odometryWheelSpeedMr := 0, odometryWheelSpeedRl := 0,
     odometryWheelSpeedRr := 0, statusDoorIsOpen := false,
     tatusGridIsAvailable := false, statusHaltBrakeIsActive := false,
     statusParkBrakeIsActive := false, temperatureAmbient := 0,
     tractionBrakePressure := 0, tractionTractionForce := 0 }⟩

/-! ## main.go: batch processing config and batch structure -/

/-- `BatchSize` from `src/main.go`: number of telemetry records per batch. -/
def BatchSize : Nat := 5000

/-- `WorkerCount` from `src/main.go`: number of worker goroutines. -/
def WorkerCount : Nat := 10

/-- `TelemetryBatch` from `src/main.go`. -/
structure TelemetryBatch where
  tripID : Int
  records : List TripTelemetry
  batchID : Nat
  totalBatches : Nat
  deriving DecidableEq, Repr

/-- The loop of `createTelemetryBatches` (`src/main.go`): starting at
offset `i`, emit the slice `telemetryData[i:min(i+BatchSize, len)]` as a
batch with `BatchID = i/BatchSize + 1` and continue at `i + BatchSize`.
`totalBatches` is the value computed once before the loop.  The `fuel`
argument is an iteration budget making the recursion structural (hence
kernel-computable); the call site passes an upper bound of the iteration
count, so the budget is never exhausted. -/
def createTelemetryBatchesLoop (tripID : Int) (telemetryData : List TripTelemetry)
    (totalBatches : Nat) : Nat → Nat → List TelemetryBatch
  | 0, _ => []
  | fuel + 1, i =>
    if i < telemetryData.length then
      { tripID := tripID
        records := (telemetryData.drop i).take BatchSize
        batchID := i / BatchSize + 1
        totalBatches := totalBatches } ::
        createTelemetryBatchesLoop tripID telemetryData totalBatches fuel (i + BatchSize)
    else
      []

/-- `createTelemetryBatches` from `src/main.go`: split a trip's
telemetry into `BatchSize`-bounded batches, `totalBatches` computed by
ceiling division. -/
def createTelemetryBatches (tripID : Int) (telemetryData : List TripTelemetry) :
    List TelemetryBatch :=
  createTelemetryBatchesLoop tripID telemetryData
    ((telemetryData.length + BatchSize - 1) / BatchSize) telemetryData.length 0

theorem createTelemetryBatchesLoop_stop (tripID : Int) (d : List TripTelemetry)
    (tot fuel i : Nat) (h : ¬ i < d.length) :
    createTelemetryBatchesLoop tripID d tot fuel i = [] := by
  cases fuel with
  | zero => rfl
  | succ n => simp [createTelemetryBatchesLoop, h]

theorem createTelemetryBatchesLoop_step (tripID : Int) (d : List TripTelemetry)
    (tot fuel i : Nat) (h : i < d.length) :
    createTelemetryBatchesLoop tripID d tot (fuel + 1) i =
      { tripID := tripID
        records := (d.drop i).take BatchSize
        batchID := i / BatchSize + 1
        totalBatches := tot } ::
        createTelemetryBatchesLoop tripID d tot fuel (i + BatchSize) := by
  simp [createTelemetryBatchesLoop, h]

theorem createTelemetryBatchesLoop_flatten (tripID : Int) (d : List TripTelemetry)
    (tot : Nat) :
    ∀ fuel i, d.length - i ≤ fuel →
      ((createTelemetryBatchesLoop tripID d tot fuel i).map TelemetryBatch.records).flatten
        = d.drop i := by
  intro fuel
  induction fuel with
  | zero =>
    intro i hi
    rw [createTelemetryBatchesLoop_stop tripID d tot 0 i (by omega)]
    simp [List.drop_eq_nil_of_le (by omega : d.length ≤ i)]
  | succ n ih =>
    intro i hi
    by_cases h : i < d.length
    · rw [createTelemetryBatchesLoop_step tripID d tot n i h]
      have hB : 0 < BatchSize := by decide
      have : d.length - (i + BatchSize) ≤ n := by omega
      rw [List.map_cons, List.flatten_cons, ih (i + BatchSize) this]
      exact List.drop_take_append_drop d i BatchSize
    · rw [createTelemetryBatchesLoop_stop tripID d tot (n + 1) i h]
      simp [List.drop_eq_nil_of_le (by omega : d.length ≤ i)]

theorem createTelemetryBatchesLoop_getElem (tripID : Int) (d : List TripTelemetry)
    (tot : Nat) :
    ∀ fuel i, d.length - i ≤ fuel →
      ∀ k, (createTelemetryBatchesLoop tripID d tot fuel i)[k]? =
        if i + k * BatchSize < d.length then
          some
            { tripID := tripID
              records := (d.drop (i + k * BatchSize)).take BatchSize
              batchID := (i + k * BatchSize) / BatchSize + 1
              totalBatches := tot }
        else none := by
  intro fuel
  induction fuel with
  | zero =>
    intro i hi k
    rw [createTelemetryBatchesLoop_stop tripID d tot 0 i (by omega)]
    rw [if_neg (by omega)]
    simp
  | succ n ih =>
    intro i hi k
    by_cases h : i < d.length
    · have hstep : d.length - (i + BatchSize) ≤ n := by
        have : 0 < BatchSize := by decide
        omega
      rw [createTelemetryBatchesLoop_step tripID d tot n i h]
      rcases k with _ | k
      · rw [List.getElem?_cons_zero, if_pos (by omega)]
        simp
      · rw [List.getElem?_cons_succ, ih (i + BatchSize) hstep k]
        have harith : i + BatchSize + k * BatchSize = i + (k + 1) * BatchSize := by ring
        rw [harith]
    · rw [createTelemetryBatchesLoop_stop tripID d tot (n + 1) i h]
      rw [if_neg (by omega)]
      simp

theorem createTelemetryBatchesLoop_length (tripID : Int) (d : List TripTelemetry)
    (tot : Nat) :
    ∀ fuel i, d.length - i ≤ fuel →
      (createTelemetryBatchesLoop tripID d tot fuel i).length
        = (d.length - i + BatchSize - 1) / BatchSize := by
  intro fuel
  induction fuel with
  | zero =>
    intro i hi
    rw [createTelemetryBatchesLoop_stop tripID d tot 0 i (by omega)]
    show 0 = (d.length - i + BatchSize - 1) / BatchSize
    have : d.length - i = 0 := by omega
    rw [this]
    decide
  | succ n ih =>
    intro i hi
    by_cases h : i < d.length
    · rw [createTelemetryBatchesLoop_step tripID d tot n i h]
      have hstep : d.length - (i + BatchSize) ≤ n := by
        have : 0 < BatchSize := by decide
        omega
      rw [List.length_cons, ih (i + BatchSize) hstep]
      simp only [BatchSize]
      omega
    · rw [createTelemetryBatchesLoop_stop tripID d tot (n + 1) i h]
      show 0 = (d.length - i + BatchSize - 1) / BatchSize
      have : d.length - i = 0 := by omega
      rw [this]
      decide

/-- C1: for every trip id and telemetry sequence of length N,
`createTelemetryBatches` with chunk size `BatchSize` returns exactly
⌈N / BatchSize⌉ batches whose `Records` concatenate, in input order, to
exactly the input; every batch except possibly the last has exactly
`BatchSize` records, batch ids are sequential starting at 1, every
batch carries `TotalBatches = ⌈N / BatchSize⌉`, and the empty input
produces no batches. -/
theorem createTelemetryBatches_spec (tripID : Int) (d : List TripTelemetry) :
    ((createTelemetryBatches tripID d).map TelemetryBatch.records).flatten = d ∧
    (createTelemetryBatches tripID d).length = (d.length + BatchSize - 1) / BatchSize ∧
    (∀ k b, (createTelemetryBatches tripID d)[k]? = some b →
        b.tripID = tripID ∧ b.batchID = k + 1 ∧
        b.totalBatches = (d.length + BatchSize - 1) / BatchSize ∧
        b.records.length = min BatchSize (d.length - k * BatchSize)) ∧
    (∀ k b, (createTelemetryBatches tripID d)[k]? = some b →
        k + 1 < (createTelemetryBatches tripID d).length →
        b.records.length = BatchSize) ∧
    (d = [] → createTelemetryBatches tripID d = []) := by
  have hget := createTelemetryBatchesLoop_getElem tripID d
    ((d.length + BatchSize - 1) / BatchSize) d.length 0 (by omega)
  have hfields : ∀ k b, (createTelemetryBatches tripID d)[k]? = some b →
      b.tripID = tripID ∧ b.batchID = k + 1 ∧
      b.totalBatches = (d.length + BatchSize - 1) / BatchSize ∧
      b.records.length = min BatchSize (d.length - k * BatchSize) := by
    intro k b hb
    rw [createTelemetryBatches, hget k] at hb
    by_cases hcond : 0 + k * BatchSize < d.length
    · rw [if_pos hcond] at hb
      have hb2 := Option.some.inj hb
      subst hb2
      refine ⟨rfl, ?_, rfl, ?_⟩
      · show (0 + k * BatchSize) / BatchSize + 1 = k + 1
        simp only [BatchSize]
        omega
      · show ((d.drop (0 + k * BatchSize)).take BatchSize).length
            = min BatchSize (d.length - k * BatchSize)
        rw [List.length_take, List.length_drop]
        simp
    · rw [if_neg hcond] at hb
      exact absurd hb (by simp)
  refine ⟨?_, ?_, hfields, ?_, ?_⟩
  · have h := createTelemetryBatchesLoop_flatten tripID d
      ((d.length + BatchSize - 1) / BatchSize) d.length 0 (by omega)
    simpa [createTelemetryBatches] using h
  · have h := createTelemetryBatchesLoop_length tripID d
      ((d.length + BatchSize - 1) / BatchSize) d.length 0 (by omega)
    simpa [createTelemetryBatches] using h
  · intro k b hb hlast
    have hlen := createTelemetryBatchesLoop_length tripID d
      ((d.length + BatchSize - 1) / BatchSize) d.length 0 (by omega)
    have hmin := (hfields k b hb).2.2.2
    rw [createTelemetryBatches, hlen] at hlast
    rw [hmin]
    simp only [BatchSize] at hlast ⊢
    omega
  · intro hd
    subst hd
    exact createTelemetryBatchesLoop_stop tripID [] _ 0 0 (by simp)

/-- Closed instance of `createTelemetryBatches_spec` at a concrete
two-record input. -/
theorem createTelemetryBatches_spec_witness :
    ((createTelemetryBatches 3 [default, default]).map TelemetryBatch.records).flatten
        = [default, default] ∧
    (createTelemetryBatches 3 [default, default]).length = 1 := by
  refine ⟨(createTelemetryBatches_spec 3 [default, default]).1, ?_⟩
  have h := (createTelemetryBatches_spec 3 [default, default]).2.1
  rw [h]
  decide

/-! ## query.sql: relational state and queries

The store (`migrations/000001_initial_migration.up.sql`) has four
tables: `buses (id SERIAL, bus_number TEXT UNIQUE)`,
`bus_routes (id SERIAL, route_code TEXT UNIQUE)`, `trips` and
`telemetry`.  Each table is a list of rows plus the next value of the
`SERIAL` sequence.  The sequence advances on every insert attempt,
including an upsert that hits the conflict branch, as in PostgreSQL. -/

structure BusRow where
  id : Int
  busNumber : PgText
  deriving DecidableEq, Repr

structure RouteRow where
  id : Int
  routeCode : PgText
  deriving DecidableEq, Repr

/-- `CreateTripParams` as generated from the `CreateTrip` query
(`query.sql`); field order follows `main.go`. -/
structure CreateTripParams where
  name : String
  busID : PgInt4
  routeID : PgInt4
  startTime : PgTimestamp
  endTime : PgTimestamp
  drivenDistanceKm : PgFloat4
  energyConsumptionKWh : PgInt4
  itcsPassengersMean : PgFloat4
  itcsPassengersMin : PgInt4
  itcsPassengersMax : PgInt4
  gridAvailableMean : PgFloat4
  temperatureMean : PgFloat4
  temperatureMin : PgFloat4
  temperatureMax : PgFloat4
  deriving DecidableEq, Repr

/-- A row of `trips`: the surrogate id plus the inserted column values. -/
structure TripRow where
  id : Int
  params : CreateTripParams
  deriving DecidableEq, Repr

/-- `InsertTelemetryParams` as generated from the `InsertTelemetry`
copy-from query (`query.sql`); field order follows `main.go`. -/
structure InsertTelemetryParams where
  tripID : Int
  time : PgTimestamp
  electricPowerDemand : PgFloat4
  gnssAltitude : PgFloat4
  gnssCourse : PgFloat4
  gnssLatitude : PgFloat4
  gnssLongitude : PgFloat4
  itcsNumberOfPassengers : PgInt4
  itcsStopName : PgText
  odometryArticulationAngle : PgFloat4
  odometrySteeringAngle : PgFloat4
  odometryVehicleSpeed : PgFloat4
  odometryWheelSpeedFl : PgFloat4
  odometryWheelSpeedFr : PgFloat4
  odometryWheelSpeedMl : PgFloat4
  odometryWheelSpeedMr : PgFloat4
  odometryWheelSpeedRl : PgFloat4
  odometryWheelSpeedRr : PgFloat4
  statusDoorIsOpen : PgBool
  statusGridIsAvailable : PgBool
  statusHaltBrakeIsActive : PgBool
  statusParkBrakeIsActive : PgBool
  temperatureAmbient : PgFloat4
  tractionBrakePressure : PgFloat4
  tractionTractionForce : PgFloat4
  busRouteID : PgInt4
  deriving DecidableEq, Repr

/-- The relational store. -/
structure DBState where
  buses : List BusRow
  busesNextId : Int
  routes : List RouteRow
  routesNextId : Int
  trips : List TripRow
  tripsNextId : Int
  telemetry : List InsertTelemetryParams
  deriving DecidableEq, Repr

def DBState.empty : DBState :=
  { buses := [], busesNextId := 1, routes := [], routesNextId := 1,
    trips := [], tripsNextId := 1, telemetry := [] }

/-- `CreateBus` (`query.sql`): `INSERT INTO buses (bus_number) VALUES ($1)
ON CONFLICT (bus_number) DO UPDATE SET bus_number = EXCLUDED.bus_number
RETURNING id`.  On conflict the existing row (the one whose `bus_number`
equals the argument) is updated to the same value and its id returned;
otherwise a fresh serial id is assigned.  Callers always pass a non-NULL
`bus_number`, so the NULL-never-conflicts corner of the UNIQUE
constraint does not arise. -/
def CreateBus (db : DBState) (busNumber : PgText) : Int × DBState :=
  match db.buses.find? (fun r => r.busNumber == busNumber) with
  | some r =>
      (r.id,
        { db with
            buses := db.buses.map (fun q =>
              if q.busNumber == busNumber then { q with busNumber := busNumber } else q)
            busesNextId := db.busesNextId + 1 })
  | none =>
      (db.busesNextId,
        { db with
            buses := db.buses ++ [{ id := db.busesNextId, busNumber := busNumber }]
            busesNextId := db.busesNextId + 1 })

/-- `CreateRoute` (`query.sql`): identical upsert shape on
`bus_routes (route_code)`. -/
def CreateRoute (db : DBState) (routeCode : PgText) : Int × DBState :=
  match db.routes.find? (fun r => r.routeCode == routeCode) with
  | some r =>
      (r.id,
        { db with
            routes := db.routes.map (fun q =>
              if q.routeCode == routeCode then { q with routeCode := routeCode } else q)
            routesNextId := db.routesNextId + 1 })
  | none =>
      (db.routesNextId,
        { db with
            routes := db.routes ++ [{ id := db.routesNextId, routeCode := routeCode }]
            routesNextId := db.routesNextId + 1 })

/-- `CreateTrip` (`query.sql`): plain insert returning the fresh serial
id.  The UNIQUE constraint on `trips.name` is not modelled as a failure
branch here; database-level failures of the trip transaction are
injected through the fault oracle of the run model below. -/
def CreateTrip (db : DBState) (p : CreateTripParams) : Int × DBState :=
  (db.tripsNextId,
    { db with
        trips := db.trips ++ [{ id := db.tripsNextId, params := p }]
        tripsNextId := db.tripsNextId + 1 })

/-- `GetBusRouteIdFromTripId` (`query.sql`): `SELECT route_id FROM trips
WHERE id = $1`; `none` models pgx's no-rows error. -/
def GetBusRouteIdFromTripId (db : DBState) (tripID : Int) : Option PgInt4 :=
  (db.trips.find? (fun r => r.id == tripID)).map (fun r => r.params.routeID)

/-- `InsertTelemetry` (`query.sql`): the COPY FROM bulk insert, appending
every row of the batch. -/
def InsertTelemetry (db : DBState) (rows : List InsertTelemetryParams) : Int × DBState :=
  (rows.length, { db with telemetry := db.telemetry ++ rows })

/-- Number of `buses` rows holding the given natural key. -/
def countBusKey (db : DBState) (busNumber : PgText) : Nat :=
  (db.buses.filter (fun r => r.busNumber == busNumber)).length

/-- Number of `bus_routes` rows holding the given natural key. -/
def countRouteKey (db : DBState) (routeCode : PgText) : Nat :=
  (db.routes.filter (fun r => r.routeCode == routeCode)).length

theorem filter_key_length_le_one {α β : Type} [DecidableEq β] (f : α → β) (key : β) :
    ∀ l : List α, (l.map f).Nodup → (l.filter (fun x => f x == key)).length ≤ 1 := by
  intro l
  induction l with
  | nil => intro _; simp
  | cons a l ih =>
    intro h
    rw [List.map_cons, List.nodup_cons] at h
    by_cases ha : f a = key
    · have hnil : l.filter (fun x => f x == key) = [] := by
        rw [List.filter_eq_nil_iff]
        intro x hx hxk
        exact h.1 (ha ▸ (beq_iff_eq.mp hxk) ▸ List.mem_map_of_mem f hx)
      have hfa : (f a == key) = true := beq_iff_eq.mpr ha
      rw [List.filter_cons, hfa, hnil]
      simp
    · have hfa : (f a == key) = false := by simpa using ha
      rw [List.filter_cons, hfa]
      simpa using ih h.2

theorem filter_key_length_eq_one {α β : Type} [DecidableEq β] (f : α → β) (key : β)
    (l : List α) (hnd : (l.map f).Nodup) (a : α) (ha : a ∈ l) (hk : f a = key) :
    (l.filter (fun x => f x == key)).length = 1 := by
  have hle := filter_key_length_le_one f key l hnd
  have hmem : a ∈ l.filter (fun x => f x == key) :=
    List.mem_filter.mpr ⟨ha, beq_iff_eq.mpr hk⟩
  have hpos : 0 < (l.filter (fun x => f x == key)).length :=
    List.length_pos.mpr (by intro hcon; rw [hcon] at hmem; exact absurd hmem (by simp))
  omega

theorem CreateBus_found (db : DBState) (k : PgText) (r : BusRow)
    (h : db.buses.find? (fun q => q.busNumber == k) = some r) :
    (CreateBus db k).1 = r.id ∧ (CreateBus db k).2.buses = db.buses := by
  have hmap : db.buses.map (fun q =>
      if q.busNumber == k then { q with busNumber := k } else q) = db.buses := by
    have : ∀ q ∈ db.buses,
        (if q.busNumber == k then { q with busNumber := k } else q) = q := by
      intro q _
      by_cases hq : q.busNumber = k
      · rw [if_pos (beq_iff_eq.mpr hq), ← hq]
      · rw [if_neg (by simpa using hq)]
    calc db.buses.map (fun q => if q.busNumber == k then { q with busNumber := k } else q)
        = db.buses.map id := List.map_congr_left this
      _ = db.buses := List.map_id db.buses
  constructor
  · show (CreateBus db k).1 = r.id
    unfold CreateBus
    rw [h]
  · show (CreateBus db k).2.buses = db.buses
    unfold CreateBus
    rw [h]
    exact hmap

theorem CreateBus_fresh (db : DBState) (k : PgText)
    (h : db.buses.find? (fun q => q.busNumber == k) = none) :
    (CreateBus db k).1 = db.busesNextId ∧
    (CreateBus db k).2.buses = db.buses ++ [{ id := db.busesNextId, busNumber := k }] := by
  constructor
  · unfold CreateBus; rw [h]
  · unfold CreateBus; rw [h]

theorem CreateRoute_found (db : DBState) (k : PgText) (r : RouteRow)
    (h : db.routes.find? (fun q => q.routeCode == k) = some r) :
    (CreateRoute db k).1 = r.id ∧ (CreateRoute db k).2.routes = db.routes := by
  have hmap : db.routes.map (fun q =>
      if q.routeCode == k then { q with routeCode := k } else q) = db.routes := by
    have : ∀ q ∈ db.routes,
        (if q.routeCode == k then { q with routeCode := k } else q) = q := by
      intro q _
      by_cases hq : q.routeCode = k
      · rw [if_pos (beq_iff_eq.mpr hq), ← hq]
      · rw [if_neg (by simpa using hq)]
    calc db.routes.map (fun q => if q.routeCode == k then { q with routeCode := k } else q)
        = db.routes.map id := List.map_congr_left this
      _ = db.routes := List.map_id db.routes
  constructor
  · show (CreateRoute db k).1 = r.id
    unfold CreateRoute
    rw [h]
  · show (CreateRoute db k).2.routes = db.routes
    unfold CreateRoute
    rw [h]
    exact hmap

theorem CreateRoute_fresh (db : DBState) (k : PgText)
    (h : db.routes.find? (fun q => q.routeCode == k) = none) :
    (CreateRoute db k).1 = db.routesNextId ∧
    (CreateRoute db k).2.routes = db.routes ++ [{ id := db.routesNextId, routeCode := k }] := by
  constructor
  · unfold CreateRoute; rw [h]
  · unfold CreateRoute; rw [h]

theorem CreateBus_twice (db : DBState) (k : PgText)
    (hb : (db.buses.map BusRow.busNumber).Nodup) :
    (CreateBus (CreateBus db k).2 k).1 = (CreateBus db k).1 ∧
    countBusKey (CreateBus db k).2 k = 1 ∧
    countBusKey (CreateBus (CreateBus db k).2 k).2 k = 1 := by
  cases hfind : db.buses.find? (fun q => q.busNumber == k) with
  | some r =>
    obtain ⟨hid1, hbuses1⟩ := CreateBus_found db k r hfind
    have hfind2 : (CreateBus db k).2.buses.find? (fun q => q.busNumber == k) = some r := by
      rw [hbuses1]; exact hfind
    obtain ⟨hid2, hbuses2⟩ := CreateBus_found _ k r hfind2
    have hpr : r.busNumber = k := by
      have hp := List.find?_some hfind
      simpa using hp
    have hcount : countBusKey db k = 1 :=
      filter_key_length_eq_one BusRow.busNumber k db.buses hb r
        (List.mem_of_find?_eq_some hfind) hpr
    refine ⟨by rw [hid1, hid2], ?_, ?_⟩
    · show countBusKey (CreateBus db k).2 k = 1
      unfold countBusKey
      rw [hbuses1]
      exact hcount
    · unfold countBusKey
      rw [hbuses2, hbuses1]
      exact hcount
  | none =>
    obtain ⟨hid1, hbuses1⟩ := CreateBus_fresh db k hfind
    have hfind2 : (CreateBus db k).2.buses.find? (fun q => q.busNumber == k)
        = some { id := db.busesNextId, busNumber := k } := by
      rw [hbuses1, List.find?_append, hfind]
      simp
    obtain ⟨hid2, hbuses2⟩ := CreateBus_found _ k _ hfind2
    have hfilter : db.buses.filter (fun q => q.busNumber == k) = [] :=
      List.filter_eq_nil_iff.mpr (List.find?_eq_none.mp hfind)
    have hcount1 : countBusKey (CreateBus db k).2 k = 1 := by
      unfold countBusKey
      rw [hbuses1, List.filter_append, hfilter]
      simp
    refine ⟨by rw [hid1, hid2], hcount1, ?_⟩
    unfold countBusKey
    rw [hbuses2]
    exact hcount1

theorem CreateRoute_twice (db : DBState) (k : PgText)
    (hr : (db.routes.map RouteRow.routeCode).Nodup) :
    (CreateRoute (CreateRoute db k).2 k).1 = (CreateRoute db k).1 ∧
    countRouteKey (CreateRoute db k).2 k = 1 ∧
    countRouteKey (CreateRoute (CreateRoute db k).2 k).2 k = 1 := by
  cases hfind : db.routes.find? (fun q => q.routeCode == k) with
  | some r =>
    obtain ⟨hid1, hroutes1⟩ := CreateRoute_found db k r hfind
    have hfind2 : (CreateRoute db k).2.routes.find? (fun q => q.routeCode == k) = some r := by
      rw [hroutes1]; exact hfind
    obtain ⟨hid2, hroutes2⟩ := CreateRoute_found _ k r hfind2
    have hpr : r.routeCode = k := by
      have hp := List.find?_some hfind
      simpa using hp
    have hcount : countRouteKey db k = 1 :=
      filter_key_length_eq_one RouteRow.routeCode k db.routes hr r
        (List.mem_of_find?_eq_some hfind) hpr
    refine ⟨by rw [hid1, hid2], ?_, ?_⟩
    · unfold countRouteKey
      rw [hroutes1]
      exact hcount
    · unfold countRouteKey
      rw [hroutes2, hroutes1]
      exact hcount
  | none =>
    obtain ⟨hid1, hroutes1⟩ := CreateRoute_fresh db k hfind
    have hfind2 : (CreateRoute db k).2.routes.find? (fun q => q.routeCode == k)
        = some { id := db.routesNextId, routeCode := k } := by
      rw [hroutes1, List.find?_append, hfind]
      simp
    obtain ⟨hid2, hroutes2⟩ := CreateRoute_found _ k _ hfind2
    have hfilter : db.routes.filter (fun q => q.routeCode == k) = [] :=
      List.filter_eq_nil_iff.mpr (List.find?_eq_none.mp hfind)
    have hcount1 : countRouteKey (CreateRoute db k).2 k = 1 := by
      unfold countRouteKey
      rw [hroutes1, List.filter_append, hfilter]
      simp
    refine ⟨by rw [hid1, hid2], hcount1, ?_⟩
    unfold countRouteKey
    rw [hroutes2]
    exact hcount1

/-- C3: resolving the same natural key twice (bus number via `CreateBus`,
route code via `CreateRoute`) against a store whose unique constraints
hold returns the same surrogate id both times and leaves exactly one row
for that key: insert-or-get, never insert-or-fail, never a duplicate
row. -/
theorem createBus_createRoute_insert_or_get (db : DBState) (busNumber routeCode : String)
    (hb : (db.buses.map BusRow.busNumber).Nodup)
    (hr : (db.routes.map RouteRow.routeCode).Nodup) :
    ((CreateBus (CreateBus db ⟨busNumber, true⟩).2 ⟨busNumber, true⟩).1
        = (CreateBus db ⟨busNumber, true⟩).1 ∧
      countBusKey (CreateBus db ⟨busNumber, true⟩).2 ⟨busNumber, true⟩ = 1 ∧
      countBusKey (CreateBus (CreateBus db ⟨busNumber, true⟩).2 ⟨busNumber, true⟩).2
        ⟨busNumber, true⟩ = 1) ∧
    ((CreateRoute (CreateRoute db ⟨routeCode, true⟩).2 ⟨routeCode, true⟩).1
        = (CreateRoute db ⟨routeCode, true⟩).1 ∧
      countRouteKey (CreateRoute db ⟨routeCode, true⟩).2 ⟨routeCode, true⟩ = 1 ∧
      countRouteKey (CreateRoute (CreateRoute db ⟨routeCode, true⟩).2 ⟨routeCode, true⟩).2
        ⟨routeCode, true⟩ = 1) :=
  ⟨CreateBus_twice db ⟨busNumber, true⟩ hb, CreateRoute_twice db ⟨routeCode, true⟩ hr⟩

/-- Closed instance of `createBus_createRoute_insert_or_get` on the
empty store. -/
theorem createBus_createRoute_insert_or_get_witness :
    countBusKey (CreateBus DBState.empty ⟨"B1", true⟩).2 ⟨"B1", true⟩ = 1 ∧
    (CreateRoute (CreateRoute DBState.empty ⟨"R1", true⟩).2 ⟨"R1", true⟩).1
        = (CreateRoute DBState.empty ⟨"R1", true⟩).1 := by
  have h := createBus_createRoute_insert_or_get DBState.empty "B1" "R1"
    (by decide) (by decide)
  exact ⟨h.1.2.1, h.2.1⟩

/-! ## main.go: telemetryWorker

The worker loop body: acquire a pooled connection, begin a transaction,
resolve the route id for the batch's trip, build one
`InsertTelemetryParams` per record, bulk-insert, commit.  Database-side
failures of acquire/begin/insert/commit are injected through a
`BatchFaults` oracle.  The parameter-building loop dereferences every
optional pointer unconditionally (`float32(*telemRow.GnssAltitude)`,
`int32(*telemRow.ItcsNumberOfPassengers)`, `*telemRow.ItcsStopName`),
so a record with an absent optional field is a nil-pointer dereference:
a runtime panic that crashes the goroutine (and, unrecovered, the whole
process) instead of sending a result. -/

/-- One `InsertTelemetryParams` literal from the loop body of
`telemetryWorker` (`src/main.go`).  `none` is the nil-pointer
dereference panic. -/
def buildInsertParams (tripID : Int) (routeID : PgInt4) (telemRow : TripTelemetry) :
    Option InsertTelemetryParams := do
  let gnssAltitudeVal ← telemRow.gnssAltitude
  let gnssCourseVal ← telemRow.gnssCourse
  let gnssLatitudeVal ← telemRow.gnssLatitude
  let gnssLongitudeVal ← telemRow.gnssLongitude
  let numberOfPassengersVal ← telemRow.itcsNumberOfPassengers
  let stopNameVal ← telemRow.itcsStopName
  pure
    { tripID := tripID
      time := { time := telemRow.timeUnix, valid := true }
      electricPowerDemand := { float32 := telemRow.electricPowerDemand, valid := true }
      gnssAltitude := { float32 := gnssAltitudeVal, valid := telemRow.gnssAltitude.isSome }
      gnssCourse := { float32 := gnssCourseVal, valid := telemRow.gnssCourse.isSome }
      gnssLatitude := { float32 := gnssLatitudeVal, valid := telemRow.gnssLatitude.isSome }
      gnssLongitude := { float32 := gnssLongitudeVal, valid := telemRow.gnssLongitude.isSome }
      itcsNumberOfPassengers :=
        { int32 := int32Wrap numberOfPassengersVal
          valid := telemRow.itcsNumberOfPassengers.isSome }
      itcsStopName := { string := stopNameVal, valid := telemRow.itcsStopName.isSome }
      odometryArticulationAngle :=
        { float32 := telemRow.odometryArticulationAngle, valid := true }
      odometrySteeringAngle := { float32 := telemRow.odometrySteeringAngle, valid := true }
      odometryVehicleSpeed := { float32 := telemRow.odometryVehicleSpeed, valid := true }
      odometryWheelSpeedFl := { float32 := telemRow.odometryWheelSpeedFl, valid := true }
      odometryWheelSpeedFr := { float32 := telemRow.odometryWheelSpeedFr, valid := true }
      odometryWheelSpeedMl := { float32 := telemRow.odometryWheelSpeedMl, valid := true }
      odometryWheelSpeedMr := { float32 := telemRow.odometryWheelSpeedMr, valid := true }
      odometryWheelSpeedRl := { float32 := telemRow.odometryWheelSpeedRl, valid := true }
      odometryWheelSpeedRr := { float32 := telemRow.odometryWheelSpeedRr, valid := true }
      statusDoorIsOpen := { bool := telemRow.statusDoorIsOpen, valid := true }
      statusGridIsAvailable := { bool := telemRow.tatusGridIsAvailable, valid := true }
      statusHaltBrakeIsActive := { bool := telemRow.statusHaltBrakeIsActive, valid := true }
      statusParkBrakeIsActive := { bool := telemRow.statusParkBrakeIsActive, valid := true }
      temperatureAmbient := { float32 := telemRow.temperatureAmbient, valid := true }
      tractionBrakePressure := { float32 := telemRow.tractionBrakePressure, valid := true }
      tractionTractionForce := { float32 := telemRow.tractionTractionForce, valid := true }
      busRouteID := routeID }

/-- The parameter-building loop of `telemetryWorker`: one
`InsertTelemetryParams` per record, stopping at the first nil-pointer
dereference. -/
def buildAllParams (tripID : Int) (routeID : PgInt4) :
    List TripTelemetry → Option (List InsertTelemetryParams)
  | [] => some []
  | r :: rs =>
      (buildInsertParams tripID routeID r).bind fun p =>
        (buildAllParams tripID routeID rs).map fun ps => p :: ps

/-- Outcome of one iteration of the worker loop: either a value was sent
on the `results` channel (`none` on success, the wrapped error on
failure), or the iteration panicked and sent nothing. -/
inductive WorkerOutcome where
  | panicked (msg : String)
  | sent (result : Option String)
  deriving DecidableEq, Repr

/-- Fault oracle for the database-side steps of one batch; `some e`
makes the corresponding call fail with underlying error text `e`. -/
structure BatchFaults where
  acquireErr : Option String
  beginErr : Option String
  insertErr : Option String
  commitErr : Option String
  deriving DecidableEq, Repr

def noFaults : BatchFaults :=
  { acquireErr := none, beginErr := none, insertErr := none, commitErr := none }

/-- Connection-ledger events: `pool.Acquire` and the deferred
`conn.Release`, which Go runs on every exit path of the iteration,
panics included. -/
inductive ConnEvent where
  | acquired
  | released
  deriving DecidableEq, Repr

/-- pgx's no-rows error text, returned bare by the route lookup. -/
def errNoRowsMsg : String := "no rows in result set"

/-- The Go runtime's nil-pointer panic message. -/
def nilDerefMsg : String := "runtime error: invalid memory address or nil pointer dereference"

/-- The wrapper applied by `telemetryWorker` before sending a failure:
`fmt.Errorf("batch %d/%d failed: %v", ...)`. -/
def batchFailureMessage (batchID totalBatches : Nat) (cause : String) : String :=
  "batch " ++ toString batchID ++ "/" ++ toString totalBatches ++ " failed: " ++ cause

/-- One iteration of the `for batch := range jobs` loop of
`telemetryWorker` (`src/main.go`), for one batch: returns the database
state, the outcome, and the connection ledger. -/
def processBatch (f : BatchFaults) (db : DBState) (batch : TelemetryBatch) :
    DBState × WorkerOutcome × List ConnEvent :=
  match f.acquireErr with
  | some e =>
      (db, .sent (some (batchFailureMessage batch.batchID batch.totalBatches
        ("could not acquire connection: " ++ e))), [])
  | none =>
    match f.beginErr with
    | some e =>
        (db, .sent (some (batchFailureMessage batch.batchID batch.totalBatches
          ("could not start transaction: " ++ e))),
          [.acquired, .released])
    | none =>
      match GetBusRouteIdFromTripId db batch.tripID with
      | none =>
          (db, .sent (some (batchFailureMessage batch.batchID batch.totalBatches
            errNoRowsMsg)),
            [.acquired, .released])
      | some routeID =>
        match buildAllParams batch.tripID routeID batch.records with
        | none => (db, .panicked nilDerefMsg, [.acquired, .released])
        | some telemetryParams =>
          match f.insertErr with
          | some e =>
              (db, .sent (some (batchFailureMessage batch.batchID batch.totalBatches
                ("error during COPY FROM: " ++ e))),
                [.acquired, .released])
          | none =>
            match f.commitErr with
            | some e =>
                (db, .sent (some (batchFailureMessage batch.batchID batch.totalBatches
                  ("could not commit transaction: " ++ e))),
                  [.acquired, .released])
            | none =>
                ((InsertTelemetry db telemetryParams).2, .sent none,
                  [.acquired, .released])

/-- A record all of whose optional source fields are present, so the
parameter-building loop does not hit the nil dereference. -/
def allOptionalsPresent (r : TripTelemetry) : Prop :=
  r.gnssAltitude.isSome = true ∧ r.gnssCourse.isSome = true ∧
  r.gnssLatitude.isSome = true ∧ r.gnssLongitude.isSome = true ∧
  r.itcsNumberOfPassengers.isSome = true ∧ r.itcsStopName.isSome = true

instance (r : TripTelemetry) : Decidable (allOptionalsPresent r) := by
  unfold allOptionalsPresent
  infer_instance

theorem buildInsertParams_isSome (tripID : Int) (routeID : PgInt4) (r : TripTelemetry)
    (h : allOptionalsPresent r) :
    (buildInsertParams tripID routeID r).isSome = true := by
  obtain ⟨h1, h2, h3, h4, h5, h6⟩ := h
  obtain ⟨a1, e1⟩ := Option.isSome_iff_exists.mp h1
  obtain ⟨a2, e2⟩ := Option.isSome_iff_exists.mp h2
  obtain ⟨a3, e3⟩ := Option.isSome_iff_exists.mp h3
  obtain ⟨a4, e4⟩ := Option.isSome_iff_exists.mp h4
  obtain ⟨a5, e5⟩ := Option.isSome_iff_exists.mp h5
  obtain ⟨a6, e6⟩ := Option.isSome_iff_exists.mp h6
  simp [buildInsertParams, e1, e2, e3, e4, e5, e6]

theorem buildAllParams_some (tripID : Int) (routeID : PgInt4) :
    ∀ rs : List TripTelemetry, (∀ r ∈ rs, allOptionalsPresent r) →
      ∃ ps, buildAllParams tripID routeID rs = some ps ∧ ps.length = rs.length := by
  intro rs
  induction rs with
  | nil => intro _; exact ⟨[], rfl, rfl⟩
  | cons r rs ih =>
    intro h
    obtain ⟨p, hp⟩ := Option.isSome_iff_exists.mp
      (buildInsertParams_isSome tripID routeID r (h r (by simp)))
    obtain ⟨ps, hps, hlen⟩ := ih (fun x hx => h x (by simp [hx]))
    refine ⟨p :: ps, ?_, by simp [hlen]⟩
    rw [buildAllParams, hp, hps]
    rfl

theorem processBatch_dichotomy (f : BatchFaults) (db : DBState) (batch : TelemetryBatch)
    (h : ∀ r ∈ batch.records, allOptionalsPresent r) :
    (∃ ps, processBatch f db batch =
        ({ db with telemetry := db.telemetry ++ ps }, .sent none,
          [ConnEvent.acquired, ConnEvent.released]) ∧
        ps.length = batch.records.length) ∨
    (∃ cause ev, processBatch f db batch =
        (db, .sent (some (batchFailureMessage batch.batchID batch.totalBatches cause)),
          ev)) := by
  obtain ⟨acq, beg, ins, com⟩ := f
  cases acq with
  | some e => exact Or.inr ⟨_, _, rfl⟩
  | none =>
    cases beg with
    | some e => exact Or.inr ⟨_, _, rfl⟩
    | none =>
      cases hroute : GetBusRouteIdFromTripId db batch.tripID with
      | none =>
        refine Or.inr ⟨errNoRowsMsg, [ConnEvent.acquired, ConnEvent.released], ?_⟩
        simp [processBatch, hroute]
      | some routeID =>
        obtain ⟨ps, hps, hlen⟩ := buildAllParams_some batch.tripID routeID batch.records h
        cases ins with
        | some e =>
          refine Or.inr ⟨"error during COPY FROM: " ++ e,
            [ConnEvent.acquired, ConnEvent.released], ?_⟩
          simp [processBatch, hroute, hps]
        | none =>
          cases com with
          | some e =>
            refine Or.inr ⟨"could not commit transaction: " ++ e,
              [ConnEvent.acquired, ConnEvent.released], ?_⟩
            simp [processBatch, hroute, hps]
          | none =>
            refine Or.inl ⟨ps, ?_, hlen⟩
            simp [processBatch, hroute, hps, InsertTelemetry]

theorem processBatch_events (f : BatchFaults) (db : DBState) (batch : TelemetryBatch) :
    (processBatch f db batch).2.2 = [] ∨
    (processBatch f db batch).2.2 = [ConnEvent.acquired, ConnEvent.released] := by
  obtain ⟨acq, beg, ins, com⟩ := f
  cases acq with
  | some e => exact Or.inl rfl
  | none =>
    cases beg with
    | some e => exact Or.inr rfl
    | none =>
      cases hroute : GetBusRouteIdFromTripId db batch.tripID with
      | none => exact Or.inr (by simp [processBatch, hroute])
      | some routeID =>
        cases hbuild : buildAllParams batch.tripID routeID batch.records with
        | none => exact Or.inr (by simp [processBatch, hroute, hbuild])
        | some ps =>
          cases ins with
          | some e => exact Or.inr (by simp [processBatch, hroute, hbuild])
          | none =>
            cases com with
            | some e => exact Or.inr (by simp [processBatch, hroute, hbuild])
            | none => exact Or.inr (by simp [processBatch, hroute, hbuild])

theorem processBatch_conn_balanced (f : BatchFaults) (db : DBState) (batch : TelemetryBatch) :
    (processBatch f db batch).2.2.count ConnEvent.acquired
      = (processBatch f db batch).2.2.count ConnEvent.released := by
  rcases processBatch_events f db batch with h | h <;> rw [h] <;> decide

/-! ## Concrete sample data for closed instances -/

/-- Concrete trip metadata row (shaped like the ZTBus `metaData.csv`). -/
def sampleMetadata : Metadata :=
  { name := "T1", busNumber := "B1", startTimeUnix := 1609459200,
    endTimeUnix := 1609462800, drivenDistance := 12, busRoute := "R1",
    energyConsumption := 34, itcsNumberOfPassengersMean := 9,
    itcsNumberOfPassengersMin := 0, itcsNumberOfPassengersMax := 30,
    statusGridIsAvailableMean := 1, temperatureAmbientMean := 4,
    temperatureAmbientMin := 1, temperatureAmbientMax := 8 }

/-- Concrete trip-row column values. -/
def sampleTripParams : CreateTripParams :=
  { name := "T1", busID := { int32 := 3, valid := true },
    routeID := { int32 := 7, valid := true },
    startTime := { time := 1609459200, valid := true },
    endTime := { time := 1609462800, valid := true },
    drivenDistanceKm := { float32 := 12, valid := true },
    energyConsumptionKWh := { int32 := 34, valid := true },
    itcsPassengersMean := { float32 := 9, valid := true },
    itcsPassengersMin := { int32 := 0, valid := true },
    itcsPassengersMax := { int32 := 30, valid := true },
    gridAvailableMean := { float32 := 1, valid := true },
    temperatureMean := { float32 := 4, valid := true },
    temperatureMin := { float32 := 1, valid := true },
    temperatureMax := { float32 := 8, valid := true } }

/-- A store already holding the committed trip with id 1. -/
def tripDB : DBState :=
  { DBState.empty with trips := [{ id := 1, params := sampleTripParams }], tripsNextId := 2 }

/-- A telemetry record with every optional field present. -/
def fullTelemetryRecord : TripTelemetry :=
  { timeUnix := 1609459260, electricPowerDemand := 37,
    gnssAltitude := some 432, gnssCourse := some 90,
    gnssLatitude := some 47, gnssLongitude := some 8,
    itcsBusRoute := "R1", itcsNumberOfPassengers := some 12,
    itcsStopName := some "Bellevue",
    odometryArticulationAngle := 1, odometrySteeringAngle := 2,
    odometryVehicleSpeed := 30, odometryWheelSpeedFl := 30,
    odometryWheelSpeedFr := 30, odometryWheelSpeedMl := 30,
    odometryWheelSpeedMr := 30, odometryWheelSpeedRl := 30,
    odometryWheelSpeedRr := 30, statusDoorIsOpen := false,
    tatusGridIsAvailable := true, statusHaltBrakeIsActive := false,
    statusParkBrakeIsActive := false, temperatureAmbient := 4,
    tractionBrakePressure := 0, tractionTractionForce := 500 }

/-- The record of end-to-end scenario 2: GNSS altitude and stop name
absent in the source. -/
def missingOptionalsRecord : TripTelemetry :=
  { fullTelemetryRecord with gnssAltitude := none, itcsStopName := none }

/-- A batch whose single record has every optional field present. -/
def goodBatch : TelemetryBatch :=
  { tripID := 1, records := [fullTelemetryRecord], batchID := 1, totalBatches := 1 }

/-- A batch whose single record has absent optional fields. -/
def badBatch : TelemetryBatch :=
  { tripID := 1, records := [missingOptionalsRecord], batchID := 1, totalBatches := 1 }

/-- C2: the worker's parameter-building step does not map absent
optional fields to stored NULLs.  On a record with an absent optional
field (scenario 2: GNSS altitude and stop name missing) the
unconditional pointer dereference in the struct literal panics — the
step does not succeed — while a record with all optional fields present
is stored unchanged with its valid flags set. -/
theorem buildInsertParams_optional_fields :
    buildInsertParams 1 { int32 := 7, valid := true } missingOptionalsRecord = none ∧
    (buildInsertParams 1 { int32 := 7, valid := true } fullTelemetryRecord).map
        InsertTelemetryParams.gnssAltitude = some { float32 := 432, valid := true } ∧
    (buildInsertParams 1 { int32 := 7, valid := true } fullTelemetryRecord).map
        InsertTelemetryParams.itcsStopName = some { string := "Bellevue", valid := true } ∧
    (buildInsertParams 1 { int32 := 7, valid := true } fullTelemetryRecord).map
        InsertTelemetryParams.itcsNumberOfPassengers
      = some { int32 := 12, valid := true } := by
  refine ⟨rfl, rfl, rfl, rfl⟩

/-- C5 counterexample: with no database fault injected, a batch holding
a record with absent optional fields makes the worker iteration panic:
nothing is sent on the results channel (the batch is not "reported as
failed"), though no row persists. -/
theorem processBatch_panicked_counterexample :
    processBatch noFaults tripDB badBatch =
      (tripDB, .panicked nilDerefMsg, [ConnEvent.acquired, ConnEvent.released]) := by
  rfl

/-- C5 (amended): for every batch whose records all have their optional
fields present, the batch is processed atomically — either every row is
committed by the batch's transaction (one stored row per record), or
the store is left unchanged and the batch is reported as failed with
its batch number, total batch count and underlying cause — and the
acquired connection is released in either case. -/
theorem processBatch_atomic (f : BatchFaults) (db : DBState) (batch : TelemetryBatch)
    (h : ∀ r ∈ batch.records, allOptionalsPresent r) :
    ((∃ ps, (processBatch f db batch).1 = { db with telemetry := db.telemetry ++ ps } ∧
        ps.length = batch.records.length ∧
        (processBatch f db batch).2.1 = .sent none) ∨
      (∃ cause, (processBatch f db batch).1 = db ∧
        (processBatch f db batch).2.1 =
          .sent (some (batchFailureMessage batch.batchID batch.totalBatches cause)))) ∧
    (processBatch f db batch).2.2.count ConnEvent.acquired
      = (processBatch f db batch).2.2.count ConnEvent.released := by
  refine ⟨?_, processBatch_conn_balanced f db batch⟩
  rcases processBatch_dichotomy f db batch h with ⟨ps, heq, hlen⟩ | ⟨cause, ev, heq⟩
  · exact Or.inl ⟨ps, by rw [heq], hlen, by rw [heq]⟩
  · exact Or.inr ⟨cause, by rw [heq], by rw [heq]⟩

/-- Closed instance of `processBatch_atomic` on a concrete all-present
batch. -/
theorem processBatch_atomic_witness :
    (processBatch noFaults tripDB goodBatch).2.2.count ConnEvent.acquired
      = (processBatch noFaults tripDB goodBatch).2.2.count ConnEvent.released :=
  (processBatch_atomic noFaults tripDB goodBatch (by decide)).2

/-- The full `for batch := range jobs` loop of one worker, over the list
of batches that worker consumes from the jobs channel.  A panicking
iteration sends nothing for its batch and ends the worker (the
unrecovered panic kills the goroutine, and with it the process). -/
def telemetryWorkerLoop (faults : TelemetryBatch → BatchFaults) (db : DBState) :
    List TelemetryBatch → DBState × List WorkerOutcome
  | [] => (db, [])
  | b :: bs =>
    match processBatch (faults b) db b with
    | (db2, .panicked msg, _) => (db2, [.panicked msg])
    | (db2, .sent r, _) =>
        let rest := telemetryWorkerLoop faults db2 bs
        (rest.1, .sent r :: rest.2)

/-- The values that actually appear on the `results` channel: one per
`sent` outcome; a panicked iteration contributes nothing. -/
def sentResults (outs : List WorkerOutcome) : List (Option String) :=
  outs.filterMap fun o =>
    match o with
    | .sent r => some r
    | .panicked _ => none

/-- The dispatcher's worker pool: each inner list is the subsequence of
batches one worker consumes from the jobs channel (the channel assigns
every dispatched batch to exactly one worker); database effects are
linearized. -/
def runWorkers (faults : TelemetryBatch → BatchFaults) (db : DBState) :
    List (List TelemetryBatch) → DBState × List (List WorkerOutcome)
  | [] => (db, [])
  | ws :: rest =>
      let r := telemetryWorkerLoop faults db ws
      let rr := runWorkers faults r.1 rest
      (rr.1, r.2 :: rr.2)

theorem telemetryWorkerLoop_count (faults : TelemetryBatch → BatchFaults) :
    ∀ (bs : List TelemetryBatch) (db : DBState),
      (∀ b ∈ bs, ∀ r ∈ b.records, allOptionalsPresent r) →
      (sentResults (telemetryWorkerLoop faults db bs).2).length = bs.length := by
  intro bs
  induction bs with
  | nil => intro db _; rfl
  | cons b bs ih =>
    intro db h
    rcases processBatch_dichotomy (faults b) db b (h b (by simp)) with
      ⟨ps, heq, _⟩ | ⟨cause, ev, heq⟩
    · rw [telemetryWorkerLoop, heq]
      have := ih ({ db with telemetry := db.telemetry ++ ps })
        (fun x hx => h x (by simp [hx]))
      simp only [sentResults, List.filterMap_cons] at this ⊢
      simp [this]
    · rw [telemetryWorkerLoop, heq]
      have := ih db (fun x hx => h x (by simp [hx]))
      simp only [sentResults, List.filterMap_cons] at this ⊢
      simp [this]

/-- C6 (amended): provided no record triggers the nil-dereference panic
(every optional field present), the number of outcomes collected on the
results channel equals the number of batches dispatched — each worker
emits exactly one outcome (nil on success, an error on failure) per
batch it consumes, however the jobs channel distributes the batches
among the workers. -/
theorem dispatcher_outcomes_match_batches (faults : TelemetryBatch → BatchFaults)
    (db : DBState) (assignment : List (List TelemetryBatch))
    (h : ∀ b ∈ assignment.flatten, ∀ r ∈ b.records, allOptionalsPresent r) :
    (sentResults (runWorkers faults db assignment).2.flatten).length
      = assignment.flatten.length := by
  induction assignment generalizing db with
  | nil => rfl
  | cons ws rest ih =>
    have hws : ∀ b ∈ ws, ∀ r ∈ b.records, allOptionalsPresent r := by
      intro b hb
      exact h b (by simp [hb])
    have hrest : ∀ b ∈ rest.flatten, ∀ r ∈ b.records, allOptionalsPresent r := by
      intro b hb
      exact h b (by simp [hb])
    rw [runWorkers]
    simp only [List.flatten_cons, sentResults, List.filterMap_append, List.length_append]
    have h1 := telemetryWorkerLoop_count faults ws db hws
    have h2 := ih (telemetryWorkerLoop faults db ws).1 hrest
    simp only [sentResults] at h1 h2
    rw [h1, h2]

/-- C6 counterexample: a worker consuming the one-batch job list whose
record has absent optional fields panics and emits no outcome — 0
outcomes are collected for 1 dispatched batch. -/
theorem dispatcher_outcome_dropped_counterexample :
    (sentResults (telemetryWorkerLoop (fun _ => noFaults) tripDB [badBatch]).2).length = 0 ∧
    [badBatch].length = 1 := ⟨rfl, rfl⟩

/-- Closed instance of `dispatcher_outcomes_match_batches` with one
worker and one all-present batch. -/
theorem dispatcher_outcomes_match_batches_witness :
    (sentResults (runWorkers (fun _ => noFaults) tripDB [[goodBatch]]).2.flatten).length
      = [[goodBatch]].flatten.length :=
  dispatcher_outcomes_match_batches (fun _ => noFaults) tripDB [[goodBatch]] (by decide)

/-! ## main.go: the per-trip pipeline and the run (`runCLI`)

The per-trip loop of `runCLI`: begin a transaction on the dedicated trip
connection, `CreateBus`, `CreateRoute`, `CreateTrip`, commit; then parse
the trip's telemetry CSV, batch it, run the worker pool, collect the
outcomes; after the loop, one `MakePartitions` call.  Database-side
failures of the trip transaction and of the maintenance step are
injected through fault oracles; the telemetry CSV parse (file system)
is an input function.  Events record, in program order, each committed
trip, each batch placed on the jobs channel, and the maintenance
call. -/

/-- Fault oracle for the five steps of one trip's transaction. -/
structure TripFaults where
  beginErr : Option String
  busErr : Option String
  routeErr : Option String
  tripErr : Option String
  commitErr : Option String
  deriving DecidableEq, Repr

def noTripFaults : TripFaults :=
  { beginErr := none, busErr := none, routeErr := none, tripErr := none, commitErr := none }

/-- Fault oracle for the maintenance block after the trip loop. -/
structure MaintFaults where
  acquireErr : Option String
  beginErr : Option String
  makeErr : Option String
  deriving DecidableEq, Repr

def noMaintFaults : MaintFaults :=
  { acquireErr := none, beginErr := none, makeErr := none }

/-- Observable events of a run, in program order. -/
inductive RunEvent where
  | tripCommitted (tripID : Int) (name : String)
  | batchDispatched (tripID : Int) (batchID : Nat)
  | partitionsMaintained
  deriving DecidableEq, Repr

/-- Result of a run (or of one trip's processing): normal return,
`return err`, or an unrecovered panic that crashed the process. -/
inductive RunResult where
  | ok
  | failed (msg : String)
  | crashed (msg : String)
  deriving DecidableEq, Repr

/-- Go `int32(x)` for a `float64` value: truncation toward zero, then
wrap-around.  No claim depends on this conversion. -/
def int32OfFloat (x : Rat) : Int :=
  int32Wrap (x.num.tdiv (x.den : Int))

/-- The `CreateTripParams` literal built in `runCLI` (`src/main.go`)
from one metadata row and the resolved bus/route ids. -/
def buildTripParams (m : Metadata) (busID routeID : Int) : CreateTripParams :=
  { name := m.name
    busID := { int32 := busID, valid := true }
    routeID := { int32 := routeID, valid := true }
    startTime := { time := m.startTimeUnix, valid := true }
    endTime := { time := m.endTimeUnix, valid := true }
    drivenDistanceKm := { float32 := m.drivenDistance, valid := true }
    energyConsumptionKWh := { int32 := int32Wrap m.energyConsumption, valid := true }
    itcsPassengersMean := { float32 := m.itcsNumberOfPassengersMean, valid := true }
    itcsPassengersMin := { int32 := int32OfFloat m.itcsNumberOfPassengersMin, valid := true }
    itcsPassengersMax := { int32 := int32OfFloat m.itcsNumberOfPassengersMax, valid := true }
    gridAvailableMean := { float32 := m.statusGridIsAvailableMean, valid := true }
    temperatureMean := { float32 := m.temperatureAmbientMean, valid := true }
    temperatureMin := { float32 := m.temperatureAmbientMin, valid := true }
    temperatureMax := { float32 := m.temperatureAmbientMax, valid := true } }

/-- The first panic message among a worker's outcomes, if any. -/
def outcomesCrashed (outs : List WorkerOutcome) : Option String :=
  outs.findSome? fun o =>
    match o with
    | .panicked msg => some msg
    | .sent _ => none

/-- The collector block of `runCLI` (`src/main.go`): gather the non-nil
results into `processingErrors`; if any, fail the trip with the first
collected error wrapped as
`errors processing telemetry for trip <name>: <first>`. -/
def aggregateTripResult (name : String) (results : List (Option String)) : Option String :=
  match results.filterMap id with
  | [] => none
  | e :: _ => some ("errors processing telemetry for trip " ++ name ++ ": " ++ e)

/-- The trip-creation transaction body of `runCLI` (`src/main.go`):
`CreateBus`, `CreateRoute` (staged on the transaction), then
`CreateTrip`, returning the new trip id and the staged store. -/
def registerTrip (db : DBState) (m : Metadata) : Int × DBState :=
  let rbus := CreateBus db { string := m.busNumber, valid := true }
  let rroute := CreateRoute rbus.2 { string := m.busRoute, valid := true }
  CreateTrip rroute.2 (buildTripParams m rbus.1 rroute.1)

/-- One iteration of the per-trip loop of `runCLI` (`src/main.go`):
trip-creation transaction (begin, `registerTrip`, commit — any failure
rolls the staged changes back and fails the run), then
`ParseTripTelemetryCSV`, the empty-telemetry shortcut, batching, the
worker pool, and the collector. -/
def processTrip (tf : TripFaults) (bf : TelemetryBatch → BatchFaults)
    (telemetryOf : String → Except String (List TripTelemetry))
    (db : DBState) (m : Metadata) : DBState × List RunEvent × RunResult :=
  match tf.beginErr with
  | some e => (db, [], .failed ("could not start the transaction: " ++ e))
  | none =>
  match tf.busErr with
  | some e => (db, [], .failed ("could not create bus id: " ++ e))
  | none =>
  match tf.routeErr with
  | some e => (db, [], .failed ("could not create route id: " ++ e))
  | none =>
  match tf.tripErr with
  | some e => (db, [], .failed ("could not create trip: " ++ e))
  | none =>
  let rtrip := registerTrip db m
  match tf.commitErr with
  | some e => (db, [], .failed ("could not commit trip transaction: " ++ e))
  | none =>
  let db1 := rtrip.2
  let tripID := rtrip.1
  let ev0 := [RunEvent.tripCommitted tripID m.name]
  match telemetryOf m.name with
  | .error e =>
      (db1, ev0, .failed ("could not parse telemetry CSV for trip " ++ m.name ++ ": " ++ e))
  | .ok tripTelemetry =>
    if tripTelemetry.length = 0 then
      (db1, ev0, .ok)
    else
      let batches := createTelemetryBatches tripID tripTelemetry
      let evD := batches.map (fun b => RunEvent.batchDispatched b.tripID b.batchID)
      let wr := telemetryWorkerLoop bf db1 batches
      match outcomesCrashed wr.2 with
      | some msg => (wr.1, ev0 ++ evD, .crashed msg)
      | none =>
        match aggregateTripResult m.name (sentResults wr.2) with
        | some msg => (wr.1, ev0 ++ evD, .failed msg)
        | none => (wr.1, ev0 ++ evD, .ok)

/-- The `for _, m := range metadata` loop of `runCLI`: trips processed
strictly sequentially, the first trip-level failure aborting the run. -/
def runTrips (tf : Nat → TripFaults) (bf : TelemetryBatch → BatchFaults)
    (telemetryOf : String → Except String (List TripTelemetry)) :
    Nat → DBState → List Metadata → DBState × List RunEvent × RunResult
  | _, db, [] => (db, [], .ok)
  | idx, db, m :: rest =>
    let r := processTrip (tf idx) bf telemetryOf db m
    match r.2.2 with
    | .ok =>
        let rr := runTrips tf bf telemetryOf (idx + 1) r.1 rest
        (rr.1, r.2.1 ++ rr.2.1, rr.2.2)
    | res => (r.1, r.2.1, res)

/-- The maintenance block at the end of `runCLI`: acquire a connection,
begin a transaction, `MakePartitions` (`CALL
public.run_maintenance_proc()` — partition housekeeping, no data-row
change), commit via the surrounding transaction.  Its failure fails the
run; it never touches committed rows. -/
def maintenance (mf : MaintFaults) (db : DBState) : DBState × List RunEvent × RunResult :=
  match mf.acquireErr with
  | some e => (db, [], .failed ("could not acquire connection: " ++ e))
  | none =>
  match mf.beginErr with
  | some e => (db, [], .failed ("could not start transaction: " ++ e))
  | none =>
  match mf.makeErr with
  | some e => (db, [], .failed ("could not create time partitions: " ++ e))
  | none => (db, [RunEvent.partitionsMaintained], .ok)

/-- The data-load portion of `runCLI` (`src/main.go`), after flag
handling and pool construction: parse `metaData.csv` (its result is the
`metadataResult` input — a parse failure is surfaced before any
database work), run the per-trip loop, then the maintenance block. -/
def runCLI (metadataResult : Except String (List Metadata))
    (telemetryOf : String → Except String (List TripTelemetry))
    (tf : Nat → TripFaults) (bf : TelemetryBatch → BatchFaults)
    (mf : MaintFaults) (db : DBState) : DBState × List RunEvent × RunResult :=
  match metadataResult with
  | .error e => (db, [], .failed ("could not parse metadata CSV: " ++ e))
  | .ok metadata =>
    let r := runTrips tf bf telemetryOf 0 db metadata
    match r.2.2 with
    | .ok =>
        let mres := maintenance mf r.1
        (mres.1, r.2.1 ++ mres.2.1, mres.2.2)
    | res => (r.1, r.2.1, res)

/-! ## Run-level lemmas -/

theorem CreateBus_trips (db : DBState) (k : PgText) :
    (CreateBus db k).2.trips = db.trips ∧ (CreateBus db k).2.telemetry = db.telemetry := by
  unfold CreateBus
  cases db.buses.find? (fun r => r.busNumber == k) <;> exact ⟨rfl, rfl⟩

theorem CreateRoute_trips (db : DBState) (k : PgText) :
    (CreateRoute db k).2.trips = db.trips ∧ (CreateRoute db k).2.telemetry = db.telemetry := by
  unfold CreateRoute
  cases db.routes.find? (fun r => r.routeCode == k) <;> exact ⟨rfl, rfl⟩

theorem CreateTrip_fields (db : DBState) (p : CreateTripParams) :
    (CreateTrip db p).2.trips = db.trips ++ [{ id := db.tripsNextId, params := p }] ∧
    (CreateTrip db p).2.telemetry = db.telemetry := ⟨rfl, rfl⟩

theorem processBatch_trips (f : BatchFaults) (db : DBState) (batch : TelemetryBatch) :
    (processBatch f db batch).1.trips = db.trips := by
  obtain ⟨acq, beg, ins, com⟩ := f
  cases acq with
  | some e => rfl
  | none =>
    cases beg with
    | some e => rfl
    | none =>
      cases hroute : GetBusRouteIdFromTripId db batch.tripID with
      | none => simp [processBatch, hroute]
      | some routeID =>
        cases hbuild : buildAllParams batch.tripID routeID batch.records with
        | none => simp [processBatch, hroute, hbuild]
        | some ps =>
          cases ins with
          | some e => simp [processBatch, hroute, hbuild]
          | none =>
            cases com with
            | some e => simp [processBatch, hroute, hbuild]
            | none => simp [processBatch, hroute, hbuild, InsertTelemetry]

theorem telemetryWorkerLoop_trips (bf : TelemetryBatch → BatchFaults) :
    ∀ (bs : List TelemetryBatch) (db : DBState),
      (telemetryWorkerLoop bf db bs).1.trips = db.trips := by
  intro bs
  induction bs with
  | nil => intro db; rfl
  | cons b bs ih =>
    intro db
    rw [telemetryWorkerLoop]
    cases hp : processBatch (bf b) db b with
    | mk db2 rest =>
      have hdb2 : db2.trips = db.trips := by
        have := processBatch_trips (bf b) db b
        rw [hp] at this
        exact this
      cases rest with
      | mk out ev =>
        cases out with
        | panicked msg => simpa using hdb2
        | sent r => simpa using (ih db2).trans hdb2

theorem createTelemetryBatchesLoop_tripID (t : Int) (d : List TripTelemetry) (tot : Nat) :
    ∀ fuel i, ∀ b ∈ createTelemetryBatchesLoop t d tot fuel i, b.tripID = t := by
  intro fuel
  induction fuel with
  | zero => intro i b hb; simp [createTelemetryBatchesLoop] at hb
  | succ n ih =>
    intro i b hb
    by_cases h : i < d.length
    · rw [createTelemetryBatchesLoop_step t d tot n i h] at hb
      rcases List.mem_cons.mp hb with hb | hb
      · rw [hb]
      · exact ih (i + BatchSize) b hb
    · rw [createTelemetryBatchesLoop_stop t d tot (n + 1) i h] at hb
      simp at hb

theorem createTelemetryBatches_tripID (t : Int) (d : List TripTelemetry) :
    ∀ b ∈ createTelemetryBatches t d, b.tripID = t := by
  intro b hb
  exact createTelemetryBatchesLoop_tripID t d _ d.length 0 b hb

/-- Shape of the events one trip contributes: nothing (the trip failed
before its commit), or the commit of its trip row followed only by
dispatch events carrying that trip's id. -/
theorem processTrip_events (tf : TripFaults) (bf : TelemetryBatch → BatchFaults)
    (telemetryOf : String → Except String (List TripTelemetry))
    (db : DBState) (m : Metadata) :
    (processTrip tf bf telemetryOf db m).2.1 = [] ∨
    ∃ tid evD, (processTrip tf bf telemetryOf db m).2.1
        = RunEvent.tripCommitted tid m.name :: evD ∧
      ∀ e ∈ evD, ∃ bid, e = RunEvent.batchDispatched tid bid := by
  obtain ⟨beg, bus, route, trip, com⟩ := tf
  cases beg with
  | some e => exact Or.inl rfl
  | none =>
  cases bus with
  | some e => exact Or.inl rfl
  | none =>
  cases route with
  | some e => exact Or.inl rfl
  | none =>
  cases trip with
  | some e => exact Or.inl rfl
  | none =>
  cases com with
  | some e => exact Or.inl rfl
  | none =>
  cases hcsv : telemetryOf m.name with
  | error e =>
    refine Or.inr ⟨(registerTrip db m).1, [], ?_, by simp⟩
    simp [processTrip, hcsv]
  | ok tele =>
    by_cases hlen : tele.length = 0
    · refine Or.inr ⟨(registerTrip db m).1, [], ?_, by simp⟩
      simp [processTrip, hcsv, hlen]
    · refine Or.inr ⟨(registerTrip db m).1,
        (createTelemetryBatches (registerTrip db m).1 tele).map
          (fun b => RunEvent.batchDispatched b.tripID b.batchID), ?_, ?_⟩
      · simp only [processTrip, hcsv, hlen]
        cases houtc : outcomesCrashed (telemetryWorkerLoop bf (registerTrip db m).2
            (createTelemetryBatches (registerTrip db m).1 tele)).2 with
        | some msg => simp [houtc]
        | none =>
          cases hagg : aggregateTripResult m.name (sentResults (telemetryWorkerLoop bf
              (registerTrip db m).2
              (createTelemetryBatches (registerTrip db m).1 tele)).2) with
          | some msg => simp [houtc, hagg]
          | none => simp [houtc, hagg]
      · intro e he
        obtain ⟨b, hb, hbe⟩ := List.mem_map.mp he
        exact ⟨b.batchID,
          by rw [← hbe, createTelemetryBatches_tripID (registerTrip db m).1 tele b hb]⟩

/-- Every dispatch event in a trace is preceded by the commit event of
the trip it belongs to. -/
def dispatchAfterCommit (events : List RunEvent) : Prop :=
  ∀ (k : Nat) (tid : Int) (bid : Nat),
    events[k]? = some (RunEvent.batchDispatched tid bid) →
    ∃ (j : Nat) (name : String), j < k ∧
      events[j]? = some (RunEvent.tripCommitted tid name)

theorem dispatchAfterCommit_nil : dispatchAfterCommit [] := by
  intro k tid bid hk
  simp at hk

theorem dispatchAfterCommit_append {e1 e2 : List RunEvent}
    (h1 : dispatchAfterCommit e1) (h2 : dispatchAfterCommit e2) :
    dispatchAfterCommit (e1 ++ e2) := by
  intro k tid bid hk
  by_cases hkl : k < e1.length
  · rw [List.getElem?_append_left hkl] at hk
    obtain ⟨j, name, hj, hje⟩ := h1 k tid bid hk
    exact ⟨j, name, hj, by rw [List.getElem?_append_left (by omega)]; exact hje⟩
  · rw [List.getElem?_append_right (by omega)] at hk
    obtain ⟨j, name, hj, hje⟩ := h2 (k - e1.length) tid bid hk
    refine ⟨e1.length + j, name, by omega, ?_⟩
    rw [List.getElem?_append_right (by omega)]
    have hidx : e1.length + j - e1.length = j := by omega
    rw [hidx]
    exact hje

theorem dispatchAfterCommit_no_dispatch {events : List RunEvent}
    (h : ∀ tid bid, RunEvent.batchDispatched tid bid ∉ events) :
    dispatchAfterCommit events := by
  intro k tid bid hk
  obtain ⟨hlt, hget⟩ := List.getElem?_eq_some.mp hk
  exact absurd (hget ▸ List.getElem_mem hlt) (h tid bid)

theorem processTrip_dispatchAfterCommit (tf : TripFaults)
    (bf : TelemetryBatch → BatchFaults)
    (telemetryOf : String → Except String (List TripTelemetry))
    (db : DBState) (m : Metadata) :
    dispatchAfterCommit (processTrip tf bf telemetryOf db m).2.1 := by
  rcases processTrip_events tf bf telemetryOf db m with h | ⟨tid, evD, h, hD⟩
  · rw [h]; exact dispatchAfterCommit_nil
  · rw [h]
    intro k tid2 bid hk
    cases k with
    | zero => simp at hk
    | succ k =>
      rw [List.getElem?_cons_succ] at hk
      obtain ⟨hlt, hget⟩ := List.getElem?_eq_some.mp hk
      obtain ⟨bid2, hb⟩ := hD _ (hget ▸ List.getElem_mem hlt)
      injection hb with h1 h2
      exact ⟨0, m.name, by omega, by rw [h1]; simp⟩

theorem runTrips_dispatchAfterCommit (tf : Nat → TripFaults)
    (bf : TelemetryBatch → BatchFaults)
    (telemetryOf : String → Except String (List TripTelemetry)) :
    ∀ (ms : List Metadata) (idx : Nat) (db : DBState),
      dispatchAfterCommit (runTrips tf bf telemetryOf idx db ms).2.1 := by
  intro ms
  induction ms with
  | nil => intro idx db; exact dispatchAfterCommit_nil
  | cons m rest ih =>
    intro idx db
    have htrip := processTrip_dispatchAfterCommit (tf idx) bf telemetryOf db m
    cases hres : (processTrip (tf idx) bf telemetryOf db m).2.2 with
    | ok =>
      have : (runTrips tf bf telemetryOf idx db (m :: rest)).2.1
          = (processTrip (tf idx) bf telemetryOf db m).2.1
            ++ (runTrips tf bf telemetryOf (idx + 1)
                (processTrip (tf idx) bf telemetryOf db m).1 rest).2.1 := by
        simp [runTrips, hres]
      rw [this]
      exact dispatchAfterCommit_append htrip (ih (idx + 1) _)
    | failed msg =>
      have : (runTrips tf bf telemetryOf idx db (m :: rest)).2.1
          = (processTrip (tf idx) bf telemetryOf db m).2.1 := by
        simp [runTrips, hres]
      rw [this]
      exact htrip
    | crashed msg =>
      have : (runTrips tf bf telemetryOf idx db (m :: rest)).2.1
          = (processTrip (tf idx) bf telemetryOf db m).2.1 := by
        simp [runTrips, hres]
      rw [this]
      exact htrip

theorem maintenance_dispatchAfterCommit (mf : MaintFaults) (db : DBState) :
    dispatchAfterCommit (maintenance mf db).2.1 := by
  obtain ⟨acq, beg, mk⟩ := mf
  apply dispatchAfterCommit_no_dispatch
  intro tid bid
  cases acq with
  | some e => simp [maintenance]
  | none =>
    cases beg with
    | some e => simp [maintenance]
    | none =>
      cases mk with
      | some e => simp [maintenance]
      | none => simp [maintenance]

theorem runCLI_dispatchAfterCommit (metadataResult : Except String (List Metadata))
    (telemetryOf : String → Except String (List TripTelemetry))
    (tf : Nat → TripFaults) (bf : TelemetryBatch → BatchFaults)
    (mf : MaintFaults) (db : DBState) :
    dispatchAfterCommit (runCLI metadataResult telemetryOf tf bf mf db).2.1 := by
  cases metadataResult with
  | error e => exact dispatchAfterCommit_nil
  | ok metadata =>
    have htrips := runTrips_dispatchAfterCommit tf bf telemetryOf metadata 0 db
    cases hres : (runTrips tf bf telemetryOf 0 db metadata).2.2 with
    | ok =>
      have : (runCLI (.ok metadata) telemetryOf tf bf mf db).2.1
          = (runTrips tf bf telemetryOf 0 db metadata).2.1
            ++ (maintenance mf (runTrips tf bf telemetryOf 0 db metadata).1).2.1 := by
        simp [runCLI, hres]
      rw [this]
      exact dispatchAfterCommit_append htrips (maintenance_dispatchAfterCommit mf _)
    | failed msg =>
      have : (runCLI (.ok metadata) telemetryOf tf bf mf db).2.1
          = (runTrips tf bf telemetryOf 0 db metadata).2.1 := by
        simp [runCLI, hres]
      rw [this]
      exact htrips
    | crashed msg =>
      have : (runCLI (.ok metadata) telemetryOf tf bf mf db).2.1
          = (runTrips tf bf telemetryOf 0 db metadata).2.1 := by
        simp [runCLI, hres]
      rw [this]
      exact htrips

/-! ## Foreign-key invariant: telemetry rows reference existing trips -/

/-- Every stored telemetry row's trip reference points to a row of the
`trips` table. -/
def telemetryRefsOk (db : DBState) : Prop :=
  ∀ row ∈ db.telemetry, ∃ t ∈ db.trips, t.id = row.tripID

instance (db : DBState) : Decidable (telemetryRefsOk db) := by
  unfold telemetryRefsOk
  infer_instance

theorem buildInsertParams_tripID (t : Int) (rid : PgInt4) (r : TripTelemetry)
    (p : InsertTelemetryParams) (h : buildInsertParams t rid r = some p) :
    p.tripID = t := by
  unfold buildInsertParams at h
  cases h1 : r.gnssAltitude with
  | none => rw [h1] at h; simp at h
  | some a1 =>
  cases h2 : r.gnssCourse with
  | none => rw [h1, h2] at h; simp at h
  | some a2 =>
  cases h3 : r.gnssLatitude with
  | none => rw [h1, h2, h3] at h; simp at h
  | some a3 =>
  cases h4 : r.gnssLongitude with
  | none => rw [h1, h2, h3, h4] at h; simp at h
  | some a4 =>
  cases h5 : r.itcsNumberOfPassengers with
  | none => rw [h1, h2, h3, h4, h5] at h; simp at h
  | some a5 =>
  cases h6 : r.itcsStopName with
  | none => rw [h1, h2, h3, h4, h5, h6] at h; simp at h
  | some a6 =>
    rw [h1, h2, h3, h4, h5, h6] at h
    simp at h
    subst h
    rfl

theorem buildAllParams_tripID (t : Int) (rid : PgInt4) :
    ∀ (rs : List TripTelemetry) (ps : List InsertTelemetryParams),
      buildAllParams t rid rs = some ps → ∀ p ∈ ps, p.tripID = t := by
  intro rs
  induction rs with
  | nil =>
    intro ps h p hp
    rw [buildAllParams] at h
    simp at h
    subst h
    simp at hp
  | cons r rs ih =>
    intro ps h p hp
    rw [buildAllParams] at h
    cases h1 : buildInsertParams t rid r with
    | none => rw [h1] at h; simp at h
    | some q =>
      rw [h1] at h
      cases h2 : buildAllParams t rid rs with
      | none => rw [h2] at h; simp at h
      | some qs =>
        rw [h2] at h
        simp at h
        subst h
        rcases List.mem_cons.mp hp with hp | hp
        · rw [hp]; exact buildInsertParams_tripID t rid r q h1
        · exact ih qs h2 p hp

theorem GetBusRouteIdFromTripId_some_trip (db : DBState) (tid : Int) (rid : PgInt4)
    (h : GetBusRouteIdFromTripId db tid = some rid) :
    ∃ t ∈ db.trips, t.id = tid := by
  unfold GetBusRouteIdFromTripId at h
  cases hf : db.trips.find? (fun r => r.id == tid) with
  | none => rw [hf] at h; simp at h
  | some t =>
    refine ⟨t, List.mem_of_find?_eq_some hf, ?_⟩
    have hp := List.find?_some hf
    simpa using hp

theorem processBatch_telemetryRefsOk (f : BatchFaults) (db : DBState)
    (batch : TelemetryBatch) (h : telemetryRefsOk db) :
    telemetryRefsOk (processBatch f db batch).1 := by
  obtain ⟨acq, beg, ins, com⟩ := f
  cases acq with
  | some e => exact h
  | none =>
    cases beg with
    | some e => exact h
    | none =>
      cases hroute : GetBusRouteIdFromTripId db batch.tripID with
      | none => simpa [processBatch, hroute] using h
      | some routeID =>
        cases hbuild : buildAllParams batch.tripID routeID batch.records with
        | none => simpa [processBatch, hroute, hbuild] using h
        | some ps =>
          cases ins with
          | some e => simpa [processBatch, hroute, hbuild] using h
          | none =>
            cases com with
            | some e => simpa [processBatch, hroute, hbuild] using h
            | none =>
              have hres : (processBatch ⟨none, none, none, none⟩ db batch).1
                  = { db with telemetry := db.telemetry ++ ps } := by
                simp [processBatch, hroute, hbuild, InsertTelemetry]
              rw [hres]
              intro row hrow
              rcases List.mem_append.mp hrow with hrow | hrow
              · exact h row hrow
              · have htid := buildAllParams_tripID batch.tripID routeID
                  batch.records ps hbuild row hrow
                obtain ⟨t, ht, htd⟩ :=
                  GetBusRouteIdFromTripId_some_trip db batch.tripID routeID hroute
                exact ⟨t, ht, by rw [htd, htid]⟩

theorem telemetryWorkerLoop_telemetryRefsOk (bf : TelemetryBatch → BatchFaults) :
    ∀ (bs : List TelemetryBatch) (db : DBState), telemetryRefsOk db →
      telemetryRefsOk (telemetryWorkerLoop bf db bs).1 := by
  intro bs
  induction bs with
  | nil => intro db h; exact h
  | cons b bs ih =>
    intro db h
    rw [telemetryWorkerLoop]
    have hb := processBatch_telemetryRefsOk (bf b) db b h
    cases hp : processBatch (bf b) db b with
    | mk db2 rest =>
      rw [hp] at hb
      cases rest with
      | mk out ev =>
        cases out with
        | panicked msg => exact hb
        | sent r => exact ih db2 hb

theorem registerTrip_telemetryRefsOk (db : DBState) (m : Metadata)
    (h : telemetryRefsOk db) : telemetryRefsOk (registerTrip db m).2 := by
  obtain ⟨hbt, hbtel⟩ := CreateBus_trips db { string := m.busNumber, valid := true }
  obtain ⟨hrt, hrtel⟩ := CreateRoute_trips
    (CreateBus db { string := m.busNumber, valid := true }).2
    { string := m.busRoute, valid := true }
  intro row hrow
  have hrow2 : row ∈ (CreateRoute (CreateBus db { string := m.busNumber, valid := true }).2
      { string := m.busRoute, valid := true }).2.telemetry := hrow
  rw [hrtel, hbtel] at hrow2
  obtain ⟨t, ht, htd⟩ := h row hrow2
  have ht2 : t ∈ (CreateRoute (CreateBus db { string := m.busNumber, valid := true }).2
      { string := m.busRoute, valid := true }).2.trips := by
    rw [hrt, hbt]; exact ht
  exact ⟨t, List.mem_append_left _ ht2, htd⟩

theorem processTrip_telemetryRefsOk (tf : TripFaults) (bf : TelemetryBatch → BatchFaults)
    (telemetryOf : String → Except String (List TripTelemetry))
    (db : DBState) (m : Metadata) (h : telemetryRefsOk db) :
    telemetryRefsOk (processTrip tf bf telemetryOf db m).1 := by
  obtain ⟨beg, bus, route, trip, com⟩ := tf
  cases beg with
  | some e => exact h
  | none =>
  cases bus with
  | some e => exact h
  | none =>
  cases route with
  | some e => exact h
  | none =>
  cases trip with
  | some e => exact h
  | none =>
  cases com with
  | some e => exact h
  | none =>
  have hreg := registerTrip_telemetryRefsOk db m h
  cases hcsv : telemetryOf m.name with
  | error e => simpa [processTrip, hcsv] using hreg
  | ok tele =>
    by_cases hlen : tele.length = 0
    · simpa [processTrip, hcsv, hlen] using hreg
    · have hloop := telemetryWorkerLoop_telemetryRefsOk bf
        (createTelemetryBatches (registerTrip db m).1 tele) (registerTrip db m).2 hreg
      simp only [processTrip, hcsv, hlen]
      cases houtc : outcomesCrashed (telemetryWorkerLoop bf (registerTrip db m).2
          (createTelemetryBatches (registerTrip db m).1 tele)).2 with
      | some msg => simpa [houtc] using hloop
      | none =>
        cases hagg : aggregateTripResult m.name (sentResults (telemetryWorkerLoop bf
            (registerTrip db m).2
            (createTelemetryBatches (registerTrip db m).1 tele)).2) with
        | some msg => simpa [houtc, hagg] using hloop
        | none => simpa [houtc, hagg] using hloop

theorem runTrips_telemetryRefsOk (tf : Nat → TripFaults)
    (bf : TelemetryBatch → BatchFaults)
    (telemetryOf : String → Except String (List TripTelemetry)) :
    ∀ (ms : List Metadata) (idx : Nat) (db : DBState), telemetryRefsOk db →
      telemetryRefsOk (runTrips tf bf telemetryOf idx db ms).1 := by
  intro ms
  induction ms with
  | nil => intro idx db h; exact h
  | cons m rest ih =>
    intro idx db h
    have htrip := processTrip_telemetryRefsOk (tf idx) bf telemetryOf db m h
    cases hres : (processTrip (tf idx) bf telemetryOf db m).2.2 with
    | ok =>
      have heq : (runTrips tf bf telemetryOf idx db (m :: rest)).1
          = (runTrips tf bf telemetryOf (idx + 1)
              (processTrip (tf idx) bf telemetryOf db m).1 rest).1 := by
        simp [runTrips, hres]
      rw [heq]
      exact ih (idx + 1) _ htrip
    | failed msg =>
      have heq : (runTrips tf bf telemetryOf idx db (m :: rest)).1
          = (processTrip (tf idx) bf telemetryOf db m).1 := by
        simp [runTrips, hres]
      rw [heq]
      exact htrip
    | crashed msg =>
      have heq : (runTrips tf bf telemetryOf idx db (m :: rest)).1
          = (processTrip (tf idx) bf telemetryOf db m).1 := by
        simp [runTrips, hres]
      rw [heq]
      exact htrip

theorem maintenance_db (mf : MaintFaults) (db : DBState) :
    (maintenance mf db).1 = db := by
  obtain ⟨acq, beg, mk⟩ := mf
  cases acq with
  | some e => rfl
  | none =>
    cases beg with
    | some e => rfl
    | none =>
      cases mk with
      | some e => rfl
      | none => rfl

theorem runCLI_telemetryRefsOk (metadataResult : Except String (List Metadata))
    (telemetryOf : String → Except String (List TripTelemetry))
    (tf : Nat → TripFaults) (bf : TelemetryBatch → BatchFaults)
    (mf : MaintFaults) (db : DBState) (h : telemetryRefsOk db) :
    telemetryRefsOk (runCLI metadataResult telemetryOf tf bf mf db).1 := by
  cases metadataResult with
  | error e => exact h
  | ok metadata =>
    have htrips := runTrips_telemetryRefsOk tf bf telemetryOf metadata 0 db h
    cases hres : (runTrips tf bf telemetryOf 0 db metadata).2.2 with
    | ok =>
      have heq : (runCLI (.ok metadata) telemetryOf tf bf mf db).1
          = (maintenance mf (runTrips tf bf telemetryOf 0 db metadata).1).1 := by
        simp [runCLI, hres]
      rw [heq, maintenance_db]
      exact htrips
    | failed msg =>
      have heq : (runCLI (.ok metadata) telemetryOf tf bf mf db).1
          = (runTrips tf bf telemetryOf 0 db metadata).1 := by
        simp [runCLI, hres]
      rw [heq]
      exact htrips
    | crashed msg =>
      have heq : (runCLI (.ok metadata) telemetryOf tf bf mf db).1
          = (runTrips tf bf telemetryOf 0 db metadata).1 := by
        simp [runCLI, hres]
      rw [heq]
      exact htrips

/-- C7: in every run, each telemetry batch placed on the jobs channel is
preceded, in program order, by the committed creation of the trip whose
surrogate id the batch carries (the trip transaction commits before any
dispatch); hence, starting from a store whose telemetry rows reference
existing trips, every stored telemetry sample's trip reference points to
a previously committed trip row. -/
theorem trip_committed_before_dispatch (metadataResult : Except String (List Metadata))
    (telemetryOf : String → Except String (List TripTelemetry))
    (tf : Nat → TripFaults) (bf : TelemetryBatch → BatchFaults)
    (mf : MaintFaults) (db : DBState) (hdb : telemetryRefsOk db) :
    dispatchAfterCommit (runCLI metadataResult telemetryOf tf bf mf db).2.1 ∧
    telemetryRefsOk (runCLI metadataResult telemetryOf tf bf mf db).1 :=
  ⟨runCLI_dispatchAfterCommit metadataResult telemetryOf tf bf mf db,
    runCLI_telemetryRefsOk metadataResult telemetryOf tf bf mf db hdb⟩

/-- Closed instance of `trip_committed_before_dispatch` on a concrete
one-trip run from the empty store. -/
theorem trip_committed_before_dispatch_witness :
    dispatchAfterCommit (runCLI (.ok [sampleMetadata])
        (fun _ => .ok [fullTelemetryRecord]) (fun _ => noTripFaults)
        (fun _ => noFaults) noMaintFaults DBState.empty).2.1 ∧
    telemetryRefsOk (runCLI (.ok [sampleMetadata])
        (fun _ => .ok [fullTelemetryRecord]) (fun _ => noTripFaults)
        (fun _ => noFaults) noMaintFaults DBState.empty).1 :=
  trip_committed_before_dispatch (.ok [sampleMetadata])
    (fun _ => .ok [fullTelemetryRecord]) (fun _ => noTripFaults)
    (fun _ => noFaults) noMaintFaults DBState.empty (by decide)

theorem processTrip_no_maintained (tf : TripFaults) (bf : TelemetryBatch → BatchFaults)
    (telemetryOf : String → Except String (List TripTelemetry))
    (db : DBState) (m : Metadata) :
    RunEvent.partitionsMaintained ∉ (processTrip tf bf telemetryOf db m).2.1 := by
  rcases processTrip_events tf bf telemetryOf db m with h | ⟨tid, evD, h, hD⟩ <;> rw [h]
  · simp
  · intro hmem
    rcases List.mem_cons.mp hmem with hc | hc
    · simp at hc
    · obtain ⟨bid, hb⟩ := hD _ hc
      simp at hb

theorem runTrips_no_maintained (tf : Nat → TripFaults)
    (bf : TelemetryBatch → BatchFaults)
    (telemetryOf : String → Except String (List TripTelemetry)) :
    ∀ (ms : List Metadata) (idx : Nat) (db : DBState),
      RunEvent.partitionsMaintained ∉ (runTrips tf bf telemetryOf idx db ms).2.1 := by
  intro ms
  induction ms with
  | nil => intro idx db; simp [runTrips]
  | cons m rest ih =>
    intro idx db
    have htrip := processTrip_no_maintained (tf idx) bf telemetryOf db m
    cases hres : (processTrip (tf idx) bf telemetryOf db m).2.2 with
    | ok =>
      have heq : (runTrips tf bf telemetryOf idx db (m :: rest)).2.1
          = (processTrip (tf idx) bf telemetryOf db m).2.1
            ++ (runTrips tf bf telemetryOf (idx + 1)
                (processTrip (tf idx) bf telemetryOf db m).1 rest).2.1 := by
        simp [runTrips, hres]
      rw [heq]
      intro hmem
      rcases List.mem_append.mp hmem with hc | hc
      · exact htrip hc
      · exact ih (idx + 1) _ hc
    | failed msg =>
      have heq : (runTrips tf bf telemetryOf idx db (m :: rest)).2.1
          = (processTrip (tf idx) bf telemetryOf db m).2.1 := by
        simp [runTrips, hres]
      rw [heq]
      exact htrip
    | crashed msg =>
      have heq : (runTrips tf bf telemetryOf idx db (m :: rest)).2.1
          = (processTrip (tf idx) bf telemetryOf db m).2.1 := by
        simp [runTrips, hres]
      rw [heq]
      exact htrip

theorem maintenance_events (mf : MaintFaults) (db : DBState) :
    ((maintenance mf db).2.1 = [] ∧ (maintenance mf db).2.2 ≠ .ok) ∨
    ((maintenance mf db).2.1 = [RunEvent.partitionsMaintained] ∧
      (maintenance mf db).2.2 = .ok) := by
  obtain ⟨acq, beg, mk⟩ := mf
  cases acq with
  | some e => exact Or.inl ⟨rfl, by simp [maintenance]⟩
  | none =>
    cases beg with
    | some e => exact Or.inl ⟨rfl, by simp [maintenance]⟩
    | none =>
      cases mk with
      | some e => exact Or.inl ⟨rfl, by simp [maintenance]⟩
      | none => exact Or.inr ⟨rfl, rfl⟩

/-- C8 (amended): the partition-maintenance call runs at most once per
run; on a run that returns success it ran exactly once, as the very last
event, after every trip's events; a run aborted earlier (for example by
a reported batch failure) never reaches it; and when the maintenance
call itself fails, `runCLI` returns that error while the store is left
exactly as the trip loop committed it. -/
theorem makePartitions_at_most_once (metadataResult : Except String (List Metadata))
    (telemetryOf : String → Except String (List TripTelemetry))
    (tf : Nat → TripFaults) (bf : TelemetryBatch → BatchFaults)
    (mf : MaintFaults) (db : DBState) :
    ((runCLI metadataResult telemetryOf tf bf mf db).2.1.count
        RunEvent.partitionsMaintained ≤ 1) ∧
    ((runCLI metadataResult telemetryOf tf bf mf db).2.2 = .ok →
      ∃ evT, (runCLI metadataResult telemetryOf tf bf mf db).2.1
          = evT ++ [RunEvent.partitionsMaintained] ∧
        evT.count RunEvent.partitionsMaintained = 0) ∧
    (∀ e metadata, mf = { acquireErr := none, beginErr := none, makeErr := some e } →
      metadataResult = .ok metadata →
      (runTrips tf bf telemetryOf 0 db metadata).2.2 = .ok →
      (runCLI metadataResult telemetryOf tf bf mf db).1
          = (runTrips tf bf telemetryOf 0 db metadata).1 ∧
      (runCLI metadataResult telemetryOf tf bf mf db).2.2
          = .failed ("could not create time partitions: " ++ e) ∧
      (runCLI metadataResult telemetryOf tf bf mf db).2.1.count
          RunEvent.partitionsMaintained = 0) := by
  refine ⟨?_, ?_, ?_⟩
  · cases metadataResult with
    | error e => simp [runCLI]
    | ok metadata =>
      have h0 : (runTrips tf bf telemetryOf 0 db metadata).2.1.count
          RunEvent.partitionsMaintained = 0 :=
        List.count_eq_zero.mpr (runTrips_no_maintained tf bf telemetryOf metadata 0 db)
      cases hres : (runTrips tf bf telemetryOf 0 db metadata).2.2 with
      | ok =>
        have heq : (runCLI (.ok metadata) telemetryOf tf bf mf db).2.1
            = (runTrips tf bf telemetryOf 0 db metadata).2.1
              ++ (maintenance mf (runTrips tf bf telemetryOf 0 db metadata).1).2.1 := by
          simp [runCLI, hres]
        rw [heq, List.count_append, h0]
        rcases maintenance_events mf (runTrips tf bf telemetryOf 0 db metadata).1 with
          ⟨hev, _⟩ | ⟨hev, _⟩ <;> rw [hev] <;> simp
      | failed msg =>
        have heq : (runCLI (.ok metadata) telemetryOf tf bf mf db).2.1
            = (runTrips tf bf telemetryOf 0 db metadata).2.1 := by
          simp [runCLI, hres]
        rw [heq, h0]
        omega
      | crashed msg =>
        have heq : (runCLI (.ok metadata) telemetryOf tf bf mf db).2.1
            = (runTrips tf bf telemetryOf 0 db metadata).2.1 := by
          simp [runCLI, hres]
        rw [heq, h0]
        omega
  · intro hok
    cases metadataResult with
    | error e => simp [runCLI] at hok
    | ok metadata =>
      have h0 : (runTrips tf bf telemetryOf 0 db metadata).2.1.count
          RunEvent.partitionsMaintained = 0 :=
        List.count_eq_zero.mpr (runTrips_no_maintained tf bf telemetryOf metadata 0 db)
      cases hres : (runTrips tf bf telemetryOf 0 db metadata).2.2 with
      | ok =>
        have heq : (runCLI (.ok metadata) telemetryOf tf bf mf db).2.1
            = (runTrips tf bf telemetryOf 0 db metadata).2.1
              ++ (maintenance mf (runTrips tf bf telemetryOf 0 db metadata).1).2.1 := by
          simp [runCLI, hres]
        have hok2 : (maintenance mf (runTrips tf bf telemetryOf 0 db metadata).1).2.2
            = .ok := by
          have : (runCLI (.ok metadata) telemetryOf tf bf mf db).2.2
              = (maintenance mf (runTrips tf bf telemetryOf 0 db metadata).1).2.2 := by
            simp [runCLI, hres]
          rw [← this]
          exact hok
        rcases maintenance_events mf (runTrips tf bf telemetryOf 0 db metadata).1 with
          ⟨_, hne⟩ | ⟨hev, _⟩
        · exact absurd hok2 hne
        · exact ⟨(runTrips tf bf telemetryOf 0 db metadata).2.1, by rw [heq, hev], h0⟩
      | failed msg =>
        have : (runCLI (.ok metadata) telemetryOf tf bf mf db).2.2 = .failed msg := by
          simp [runCLI, hres]
        rw [this] at hok
        simp at hok
      | crashed msg =>
        have : (runCLI (.ok metadata) telemetryOf tf bf mf db).2.2 = .crashed msg := by
          simp [runCLI, hres]
        rw [this] at hok
        simp at hok
  · intro e metadata hmf hmeta hres
    subst hmf
    subst hmeta
    have hmaint : maintenance
        { acquireErr := none, beginErr := none, makeErr := some e }
        (runTrips tf bf telemetryOf 0 db metadata).1
        = ((runTrips tf bf telemetryOf 0 db metadata).1, [],
            .failed ("could not create time partitions: " ++ e)) := rfl
    have h0 : (runTrips tf bf telemetryOf 0 db metadata).2.1.count
        RunEvent.partitionsMaintained = 0 :=
      List.count_eq_zero.mpr (runTrips_no_maintained tf bf telemetryOf metadata 0 db)
    refine ⟨?_, ?_, ?_⟩
    · simp [runCLI, hres, hmaint]
    · simp [runCLI, hres, hmaint]
    · have heq : (runCLI (.ok metadata) telemetryOf tf bf
          { acquireErr := none, beginErr := none, makeErr := some e } db).2.1
          = (runTrips tf bf telemetryOf 0 db metadata).2.1 ++ [] := by
        simp [runCLI, hres, hmaint]
      rw [heq, List.count_append, h0]
      rfl

/-- C8 counterexample: on a run where one trip had a reported batch
failure, the run aborts and the maintenance call is never invoked —
zero invocations, not exactly one. -/
def c8run : DBState × List RunEvent × RunResult :=
  runCLI (.ok [sampleMetadata]) (fun _ => .ok [fullTelemetryRecord])
    (fun _ => noTripFaults)
    (fun _ => { noFaults with insertErr := some "constraint violation" })
    noMaintFaults DBState.empty

theorem makePartitions_skipped_counterexample :
    c8run.2.1.count RunEvent.partitionsMaintained = 0 ∧
    c8run.2.2 = .failed ("errors processing telemetry for trip T1: batch 1/1 failed: error during COPY FROM: constraint violation") := by
  exact ⟨rfl, rfl⟩

/-- Closed instance of `makePartitions_at_most_once` on a successful
concrete run: the maintenance event is the last event of the trace. -/
theorem makePartitions_at_most_once_witness :
    ∃ evT, (runCLI (.ok [sampleMetadata]) (fun _ => .ok [fullTelemetryRecord])
        (fun _ => noTripFaults) (fun _ => noFaults) noMaintFaults DBState.empty).2.1
      = evT ++ [RunEvent.partitionsMaintained] ∧
      evT.count RunEvent.partitionsMaintained = 0 :=
  (makePartitions_at_most_once (.ok [sampleMetadata])
    (fun _ => .ok [fullTelemetryRecord]) (fun _ => noTripFaults)
    (fun _ => noFaults) noMaintFaults DBState.empty).2.1 (by rfl)

theorem registerTrip_telemetry (db : DBState) (m : Metadata) :
    (registerTrip db m).2.telemetry = db.telemetry := by
  obtain ⟨_, hbtel⟩ := CreateBus_trips db { string := m.busNumber, valid := true }
  obtain ⟨_, hrtel⟩ := CreateRoute_trips
    (CreateBus db { string := m.busNumber, valid := true }).2
    { string := m.busRoute, valid := true }
  exact hrtel.trans hbtel

/-- C9 (amended): a failure to parse the metadata file is surfaced
before any database work at all; a failure to parse one trip's
telemetry file is surfaced before any batch is dispatched for that trip
and before any telemetry row is written — but only after that trip's
bus, route and trip rows have been committed by the trip
transaction. -/
theorem input_errors_surfaced :
    (∀ (e : String) (telemetryOf : String → Except String (List TripTelemetry))
        (tf : Nat → TripFaults) (bf : TelemetryBatch → BatchFaults)
        (mf : MaintFaults) (db : DBState),
      runCLI (.error e) telemetryOf tf bf mf db
        = (db, [], .failed ("could not parse metadata CSV: " ++ e))) ∧
    (∀ (bf : TelemetryBatch → BatchFaults)
        (telemetryOf : String → Except String (List TripTelemetry))
        (db : DBState) (m : Metadata) (e : String),
      telemetryOf m.name = .error e →
      processTrip noTripFaults bf telemetryOf db m
          = ((registerTrip db m).2,
             [RunEvent.tripCommitted (registerTrip db m).1 m.name],
             .failed ("could not parse telemetry CSV for trip " ++ m.name ++ ": " ++ e)) ∧
      (registerTrip db m).2.telemetry = db.telemetry) := by
  constructor
  · intro e telemetryOf tf bf mf db
    rfl
  · intro bf telemetryOf db m e hcsv
    refine ⟨?_, registerTrip_telemetry db m⟩
    simp [processTrip, noTripFaults, hcsv]

/-- C9 counterexample: a run whose single trip has a missing telemetry
file fails with the parse error, yet the trip's bus, route and trip
rows have already been committed — the database work for the trip
happened before the input error was surfaced. -/
def c9run : DBState × List RunEvent × RunResult :=
  runCLI (.ok [sampleMetadata])
    (fun _ => .error "open T1.csv: no such file or directory")
    (fun _ => noTripFaults) (fun _ => noFaults) noMaintFaults DBState.empty

theorem telemetry_error_after_db_work_counterexample :
    c9run.2.2 = .failed ("could not parse telemetry CSV for trip T1: open T1.csv: no such file or directory") ∧
    c9run.1.trips.length = 1 ∧
    c9run.1.buses.length = 1 ∧
    c9run.1.routes.length = 1 ∧
    c9run.2.1 = [RunEvent.tripCommitted 1 "T1"] := by
  exact ⟨rfl, rfl, rfl, rfl, rfl⟩

/-- Closed instance of `input_errors_surfaced`. -/
theorem input_errors_surfaced_witness :
    runCLI (.error "bad header") (fun _ => .ok []) (fun _ => noTripFaults)
        (fun _ => noFaults) noMaintFaults DBState.empty
      = (DBState.empty, [], .failed ("could not parse metadata CSV: " ++ "bad header")) ∧
    processTrip noTripFaults (fun _ => noFaults) (fun _ => .error "no such file")
        DBState.empty sampleMetadata
      = ((registerTrip DBState.empty sampleMetadata).2,
         [RunEvent.tripCommitted (registerTrip DBState.empty sampleMetadata).1
            sampleMetadata.name],
         .failed ("could not parse telemetry CSV for trip " ++ sampleMetadata.name
            ++ ": " ++ "no such file")) :=
  ⟨input_errors_surfaced.1 "bad header" (fun _ => .ok []) (fun _ => noTripFaults)
      (fun _ => noFaults) noMaintFaults DBState.empty,
    (input_errors_surfaced.2 (fun _ => noFaults) (fun _ => .error "no such file")
      DBState.empty sampleMetadata "no such file" rfl).1⟩

theorem processBatch_failure_message (f : BatchFaults) (db : DBState)
    (b : TelemetryBatch) (msg : String)
    (h : (processBatch f db b).2.1 = .sent (some msg)) :
    ∃ cause, msg = batchFailureMessage b.batchID b.totalBatches cause := by
  obtain ⟨acq, beg, ins, com⟩ := f
  cases acq with
  | some e =>
    refine ⟨"could not acquire connection: " ++ e, ?_⟩
    have h2 : WorkerOutcome.sent (some (batchFailureMessage b.batchID b.totalBatches
        ("could not acquire connection: " ++ e))) = .sent (some msg) := h
    simpa using h2.symm
  | none =>
  cases beg with
  | some e =>
    refine ⟨"could not start transaction: " ++ e, ?_⟩
    have h2 : WorkerOutcome.sent (some (batchFailureMessage b.batchID b.totalBatches
        ("could not start transaction: " ++ e))) = .sent (some msg) := h
    simpa using h2.symm
  | none =>
  cases hroute : GetBusRouteIdFromTripId db b.tripID with
  | none =>
    simp only [processBatch, hroute] at h
    refine ⟨errNoRowsMsg, ?_⟩
    simpa using h.symm
  | some routeID =>
  cases hbuild : buildAllParams b.tripID routeID b.records with
  | none =>
    simp only [processBatch, hroute, hbuild] at h
    simp at h
  | some ps =>
  cases ins with
  | some e =>
    simp only [processBatch, hroute, hbuild] at h
    refine ⟨"error during COPY FROM: " ++ e, ?_⟩
    simpa using h.symm
  | none =>
  cases com with
  | some e =>
    simp only [processBatch, hroute, hbuild] at h
    refine ⟨"could not commit transaction: " ++ e, ?_⟩
    simpa using h.symm
  | none =>
    simp only [processBatch, hroute, hbuild] at h
    simp at h

theorem runTrips_abort (tf : Nat → TripFaults) (bf : TelemetryBatch → BatchFaults)
    (telemetryOf : String → Except String (List TripTelemetry)) (idx : Nat)
    (db : DBState) (m : Metadata) (rest : List Metadata)
    (db2 : DBState) (ev : List RunEvent) (msg : String)
    (h : processTrip (tf idx) bf telemetryOf db m = (db2, ev, .failed msg)) :
    runTrips tf bf telemetryOf idx db (m :: rest) = (db2, ev, .failed msg) := by
  have h1 : (processTrip (tf idx) bf telemetryOf db m).1 = db2 := by rw [h]
  have h21 : (processTrip (tf idx) bf telemetryOf db m).2.1 = ev := by rw [h]
  have h22 : (processTrip (tf idx) bf telemetryOf db m).2.2 = .failed msg := by rw [h]
  simp [runTrips, h22, h21, h1]

theorem runCLI_failed_propagation (tf : Nat → TripFaults)
    (bf : TelemetryBatch → BatchFaults)
    (telemetryOf : String → Except String (List TripTelemetry))
    (mf : MaintFaults) (db : DBState) (metadata : List Metadata)
    (db2 : DBState) (ev : List RunEvent) (msg : String)
    (h : runTrips tf bf telemetryOf 0 db metadata = (db2, ev, .failed msg)) :
    runCLI (.ok metadata) telemetryOf tf bf mf db = (db2, ev, .failed msg) := by
  have h1 : (runTrips tf bf telemetryOf 0 db metadata).1 = db2 := by rw [h]
  have h21 : (runTrips tf bf telemetryOf 0 db metadata).2.1 = ev := by rw [h]
  have h22 : (runTrips tf bf telemetryOf 0 db metadata).2.2 = .failed msg := by rw [h]
  simp [runCLI, h22, h21, h1]

theorem processTrip_collector_failure (bf : TelemetryBatch → BatchFaults)
    (telemetryOf : String → Except String (List TripTelemetry))
    (db : DBState) (m : Metadata) (tele : List TripTelemetry) (msg : String)
    (hcsv : telemetryOf m.name = .ok tele) (hlen : tele.length ≠ 0)
    (houtc : outcomesCrashed (telemetryWorkerLoop bf (registerTrip db m).2
        (createTelemetryBatches (registerTrip db m).1 tele)).2 = none)
    (hagg : aggregateTripResult m.name (sentResults (telemetryWorkerLoop bf
        (registerTrip db m).2
        (createTelemetryBatches (registerTrip db m).1 tele)).2) = some msg) :
    (processTrip noTripFaults bf telemetryOf db m).2.2 = .failed msg := by
  simp [processTrip, noTripFaults, hcsv, hlen, houtc, hagg]

/-- C4: a reported batch failure makes the whole trip fail and aborts
the run.  The collector turns any non-nil result into a trip-level
failure carrying the first collected error prefixed with the trip name;
a worker failure report always carries the failing batch number and the
total batch count; a failed trip makes `runTrips` return immediately
(no later trip is processed) and `runCLI` returns that error. -/
theorem batch_failure_aborts_run :
    (∀ (name : String) (results : List (Option String)),
      (∃ r ∈ results, r ≠ none) →
      ∃ e, results.filterMap id = e :: (results.filterMap id).tail ∧
        aggregateTripResult name results
          = some ("errors processing telemetry for trip " ++ name ++ ": " ++ e)) ∧
    (∀ (f : BatchFaults) (db : DBState) (b : TelemetryBatch) (msg : String),
      (processBatch f db b).2.1 = .sent (some msg) →
      ∃ cause, msg = batchFailureMessage b.batchID b.totalBatches cause) ∧
    (∀ (bf : TelemetryBatch → BatchFaults)
        (telemetryOf : String → Except String (List TripTelemetry))
        (db : DBState) (m : Metadata) (tele : List TripTelemetry) (msg : String),
      telemetryOf m.name = .ok tele → tele.length ≠ 0 →
      outcomesCrashed (telemetryWorkerLoop bf (registerTrip db m).2
          (createTelemetryBatches (registerTrip db m).1 tele)).2 = none →
      aggregateTripResult m.name (sentResults (telemetryWorkerLoop bf
          (registerTrip db m).2
          (createTelemetryBatches (registerTrip db m).1 tele)).2) = some msg →
      (processTrip noTripFaults bf telemetryOf db m).2.2 = .failed msg) ∧
    (∀ (tf : Nat → TripFaults) (bf : TelemetryBatch → BatchFaults)
        (telemetryOf : String → Except String (List TripTelemetry)) (idx : Nat)
        (db : DBState) (m : Metadata) (rest : List Metadata)
        (db2 : DBState) (ev : List RunEvent) (msg : String),
      processTrip (tf idx) bf telemetryOf db m = (db2, ev, .failed msg) →
      runTrips tf bf telemetryOf idx db (m :: rest) = (db2, ev, .failed msg)) ∧
    (∀ (tf : Nat → TripFaults) (bf : TelemetryBatch → BatchFaults)
        (telemetryOf : String → Except String (List TripTelemetry))
        (mf : MaintFaults) (db : DBState) (metadata : List Metadata)
        (db2 : DBState) (ev : List RunEvent) (msg : String),
      runTrips tf bf telemetryOf 0 db metadata = (db2, ev, .failed msg) →
      runCLI (.ok metadata) telemetryOf tf bf mf db = (db2, ev, .failed msg)) := by
  refine ⟨?_, ?_, ?_, ?_, ?_⟩
  · intro name results hfail
    obtain ⟨r, hr, hrne⟩ := hfail
    cases hfm : results.filterMap id with
    | nil =>
      obtain ⟨e, he⟩ := Option.ne_none_iff_exists.mp hrne
      have : e ∈ results.filterMap id := List.mem_filterMap.mpr ⟨r, hr, he.symm ▸ rfl⟩
      rw [hfm] at this
      simp at this
    | cons e tail =>
      refine ⟨e, rfl, ?_⟩
      unfold aggregateTripResult
      rw [hfm]
  · intro f db b msg h
    exact processBatch_failure_message f db b msg h
  · intro bf telemetryOf db m tele msg hcsv hlen houtc hagg
    exact processTrip_collector_failure bf telemetryOf db m tele msg hcsv hlen houtc hagg
  · intro tf bf telemetryOf idx db m rest db2 ev msg h
    exact runTrips_abort tf bf telemetryOf idx db m rest db2 ev msg h
  · intro tf bf telemetryOf mf db metadata db2 ev msg h
    exact runCLI_failed_propagation tf bf telemetryOf mf db metadata db2 ev msg h

/-- The store, trace and result of a concrete one-trip run whose single
batch fails on the bulk insert. -/
def c4AbortedRun : DBState × List RunEvent × RunResult :=
  runCLI (.ok [sampleMetadata]) (fun _ => .ok [fullTelemetryRecord])
    (fun _ => noTripFaults) (fun _ => { noFaults with insertErr := some "boom" })
    noMaintFaults DBState.empty

/-- Closed instance of `batch_failure_aborts_run`: a concrete one-trip
run whose single batch fails on the bulk insert is aborted with the
expected message, and a concrete failure report carries batch number
and total. -/
theorem batch_failure_aborts_run_witness :
    (∃ e, ([some "batch 1/1 failed: error during COPY FROM: boom"] :
          List (Option String)).filterMap id
        = e :: (([some "batch 1/1 failed: error during COPY FROM: boom"] :
          List (Option String)).filterMap id).tail ∧
      aggregateTripResult "T1" [some "batch 1/1 failed: error during COPY FROM: boom"]
        = some ("errors processing telemetry for trip " ++ "T1" ++ ": " ++ e)) ∧
    (∃ cause, "batch 1/1 failed: error during COPY FROM: boom"
        = batchFailureMessage goodBatch.batchID goodBatch.totalBatches cause) ∧
    runCLI (.ok [sampleMetadata]) (fun _ => .ok [fullTelemetryRecord])
        (fun _ => noTripFaults)
        (fun _ => { noFaults with insertErr := some "boom" })
        noMaintFaults DBState.empty
      = (c4AbortedRun.1, c4AbortedRun.2.1,
          .failed "errors processing telemetry for trip T1: batch 1/1 failed: error during COPY FROM: boom") := by
  refine ⟨batch_failure_aborts_run.1 "T1" _ (by decide), ?_, ?_⟩
  · exact batch_failure_aborts_run.2.1
      { noFaults with insertErr := some "boom" } tripDB goodBatch _ (by rfl)
  · exact batch_failure_aborts_run.2.2.2.2
      (fun _ => noTripFaults) (fun _ => { noFaults with insertErr := some "boom" })
      (fun _ => .ok [fullTelemetryRecord]) noMaintFaults DBState.empty
      [sampleMetadata] c4AbortedRun.1 c4AbortedRun.2.1
      "errors processing telemetry for trip T1: batch 1/1 failed: error during COPY FROM: boom"
      (by rfl)

/-! ## data.go: ParseTripTelemetryCSV header handling

`ParseTripTelemetryCSV` builds `index : map[string]int` from the header
row (`index[h] = i`, later duplicates overwriting), then reads each
requested column as `row[index[col]]`.  A Go map lookup of a missing key
yields the zero value 0, so a missing column name silently selects the
row's first field.  The `strconv` parsers are modelled on the plain
decimal/boolean forms of the dataset, with parse errors discarded — the
callers (`parseF`, `parseI`, `parseB`, `must`) keep the zero value — as
in the source; no claim depends on the numeric results. -/

def digitVal (c : Char) : Option Nat :=
  if c.isDigit then some (c.toNat - 48) else none

def parseNatDigits (cs : List Char) : Option Nat :=
  match cs with
  | [] => none
  | _ =>
    cs.foldl (fun acc c =>
      match acc, digitVal c with
      | some n, some d => some (n * 10 + d)
      | _, _ => none) (some 0)

/-- `strconv.ParseFloat` on plain decimal strings, the error case
yielding the zero value kept by `parseF`. -/
def goParseFloat (s : String) : Rat :=
  let cs := s.toList
  let signBody : Int × List Char :=
    match cs with
    | '-' :: rest => (-1, rest)
    | '+' :: rest => (1, rest)
    | _ => (1, cs)
  let intPart := signBody.2.takeWhile (fun c => c ≠ '.')
  let rest := signBody.2.dropWhile (fun c => c ≠ '.')
  match rest with
  | [] =>
    match parseNatDigits intPart with
    | some n => ((signBody.1 * (n : Int) : Int) : Rat)
    | none => 0
  | _ :: frac =>
    match parseNatDigits intPart, parseNatDigits frac with
    | some n, some f =>
        (signBody.1 : Rat) * ((n : Rat) + (f : Rat) / ((10 : Rat) ^ frac.length))
    | _, _ => 0

/-- `strconv.Atoi`, the error case yielding the zero value kept by
`parseI`. -/
def goAtoi (s : String) : Int :=
  let cs := s.toList
  let signBody : Int × List Char :=
    match cs with
    | '-' :: rest => (-1, rest)
    | '+' :: rest => (1, rest)
    | _ => (1, cs)
  match parseNatDigits signBody.2 with
  | some n => signBody.1 * n
  | none => 0

/-- `strconv.ParseBool`, the error case yielding the zero value kept by
`parseB`. -/
def goParseBool (s : String) : Bool :=
  s == "1" || s == "t" || s == "T" || s == "true" || s == "TRUE" || s == "True"

/-- `parseOptionalFloat` (`src/data.go`): empty means absent; the parse
error of a non-empty field is discarded by `must`, keeping the zero
value behind the pointer. -/
def parseOptionalFloat (s : String) : Option Rat :=
  if s = "" then none else some (goParseFloat s)

/-- `parseOptionalInt` (`src/data.go`). -/
def parseOptionalInt (s : String) : Option Int :=
  if s = "" then none else some (goAtoi s)

/-- `parseOptionalString` (`src/data.go`). -/
def parseOptionalString (s : String) : Option String :=
  if s = "" then none else some s

/-- The header-to-index map of `ParseTripTelemetryCSV` (`src/data.go`):
`index[h] = i` for each header in order (a later duplicate overwrites an
earlier one), and a missing name yields the Go zero value 0. -/
def headerIndex (headers : List String) (col : String) : Nat :=
  match headers.enum.reverse.find? (fun p => p.2 == col) with
  | some p => p.1
  | none => 0

/-- The `get` closure of `ParseTripTelemetryCSV`: `row[index[col]]`.
`encoding/csv` guarantees every data row has exactly as many fields as
the header row, so the index is in range for well-formed files; the
out-of-range default is the empty field. -/
def rowGet (headers row : List String) (col : String) : String :=
  row.getD (headerIndex headers col) ""

/-- The `TripTelemetry` literal built for one data row by
`ParseTripTelemetryCSV` (`src/data.go`). -/
def parseTelemetryRow (headers row : List String) : TripTelemetry :=
  { timeUnix := goAtoi (rowGet headers row "time_unix")
    electricPowerDemand := goParseFloat (rowGet headers row "electric_powerDemand")
    gnssAltitude := parseOptionalFloat (rowGet headers row "gnss_altitude")
    gnssCourse := parseOptionalFloat (rowGet headers row "gnss_course")
    gnssLatitude := parseOptionalFloat (rowGet headers row "gnss_latitude")
    gnssLongitude := parseOptionalFloat (rowGet headers row "gnss_longitude")
    itcsBusRoute := rowGet headers row "itcs_busRoute"
    itcsNumberOfPassengers := parseOptionalInt (rowGet headers row "itcs_numberOfPassengers")
    itcsStopName := parseOptionalString (rowGet headers row "itcs_stopName")
    odometryArticulationAngle := goParseFloat (rowGet headers row "odometry_articulationAngle")
    odometrySteeringAngle := goParseFloat (rowGet headers row "odometry_steeringAngle")
    odometryVehicleSpeed := goParseFloat (rowGet headers row "odometry_vehicleSpeed")
    odometryWheelSpeedFl := goParseFloat (rowGet headers row "odometry_wheelSpeed_fl")
    odometryWheelSpeedFr := goParseFloat (rowGet headers row "odometry_wheelSpeed_fr")
    odometryWheelSpeedMl := goParseFloat (rowGet headers row "odometry_wheelSpeed_ml")
    odometryWheelSpeedMr := goParseFloat (rowGet headers row "odometry_wheelSpeed_mr")
    odometryWheelSpeedRl := goParseFloat (rowGet headers row "odometry_wheelSpeed_rl")
    odometryWheelSpeedRr := goParseFloat (rowGet headers row "odometry_wheelSpeed_rr")
    statusDoorIsOpen := goParseBool (rowGet headers row "status_doorIsOpen")
    tatusGridIsAvailable := goParseBool (rowGet headers row "tatus_gridIsAvailable")
    statusHaltBrakeIsActive := goParseBool (rowGet headers row "status_haltBrakeIsActive")
    statusParkBrakeIsActive := goParseBool (rowGet headers row "status_parkBrakeIsActive")
    temperatureAmbient := goParseFloat (rowGet headers row "temperature_ambient")
    tractionBrakePressure := goParseFloat (rowGet headers row "traction_brakePressure")
    tractionTractionForce := goParseFloat (rowGet headers row "traction_tractionForce") }

theorem headerIndex_missing (headers : List String) (col : String)
    (h : col ∉ headers) : headerIndex headers col = 0 := by
  unfold headerIndex
  have hfind : headers.enum.reverse.find? (fun p => p.2 == col) = none := by
    rw [List.find?_eq_none]
    intro p hp hpe
    obtain ⟨i, x⟩ := p
    have hp2 : (i, x) ∈ headers.enum := List.mem_reverse.mp hp
    obtain ⟨hi, hx⟩ := List.mem_enum hp2
    have hxc : x = col := by simpa using hpe
    exact h (hxc ▸ hx ▸ List.getElem_mem hi)
  rw [hfind]

/-- The header row of a ZTBus telemetry CSV, with the grid-availability
column spelled `status_gridIsAvailable`. -/
def ztbusHeaders : List String :=
  ["time_unix", "electric_powerDemand", "gnss_altitude", "gnss_course",
   "gnss_latitude", "gnss_longitude", "itcs_busRoute", "itcs_numberOfPassengers",
   "itcs_stopName", "odometry_articulationAngle", "odometry_steeringAngle",
   "odometry_vehicleSpeed", "odometry_wheelSpeed_fl", "odometry_wheelSpeed_fr",
   "odometry_wheelSpeed_ml", "odometry_wheelSpeed_mr", "odometry_wheelSpeed_rl",
   "odometry_wheelSpeed_rr", "status_doorIsOpen", "status_gridIsAvailable",
   "status_haltBrakeIsActive", "status_parkBrakeIsActive", "temperature_ambient",
   "traction_brakePressure", "traction_tractionForce"]

/-- A data row matching `ztbusHeaders`, whose grid column holds
`"true"`. -/
def sampleCsvRow : List String :=
  ["1609459260", "37.5", "432.0", "90.0", "47.37", "8.54", "33", "12",
   "Bellevue", "0.1", "0.2", "30.0", "30.0", "30.0", "30.0", "30.0",
   "30.0", "30.0", "false", "true", "false", "false", "4.5", "0.0", "500.0"]

/-- C10: `ParseTripTelemetryCSV` never reports an error for a column
name absent from the header: the header-to-index map yields 0 for a
missing name, so the row's first field is silently parsed in its place.
The grid-availability flag is requested under the misspelled name
`tatus_gridIsAvailable`, so on a file whose header spells it
`status_gridIsAvailable` the flag is parsed from the first (time)
column of every row — concretely, a row whose grid column holds
`"true"` parses to `false`, from the epoch-seconds field. -/
theorem missing_header_reads_first_column :
    (∀ (headers : List String) (col : String), col ∉ headers →
      headerIndex headers col = 0) ∧
    (∀ headers row : List String, "tatus_gridIsAvailable" ∉ headers →
      (parseTelemetryRow headers row).tatusGridIsAvailable
        = goParseBool (row.getD 0 "")) ∧
    ((parseTelemetryRow ztbusHeaders sampleCsvRow).tatusGridIsAvailable = false ∧
      rowGet ztbusHeaders sampleCsvRow "status_gridIsAvailable" = "true") := by
  refine ⟨headerIndex_missing, ?_, ?_, ?_⟩
  · intro headers row hmiss
    have hfield : (parseTelemetryRow headers row).tatusGridIsAvailable
        = goParseBool (rowGet headers row "tatus_gridIsAvailable") := rfl
    rw [hfield]
    unfold rowGet
    rw [headerIndex_missing headers "tatus_gridIsAvailable" hmiss]
  · rfl
  · rfl

/-- Closed instance of `missing_header_reads_first_column` on the real
header row. -/
theorem missing_header_reads_first_column_witness :
    headerIndex ztbusHeaders "tatus_gridIsAvailable" = 0 ∧
    (parseTelemetryRow ztbusHeaders sampleCsvRow).tatusGridIsAvailable
      = goParseBool (sampleCsvRow.getD 0 "") :=
  ⟨missing_header_reads_first_column.1 ztbusHeaders "tatus_gridIsAvailable" (by decide),
    missing_header_reads_first_column.2.1 ztbusHeaders sampleCsvRow (by decide)⟩
